import Mathlib

/-!
Shallow embedding of the `@magic-spells/cart-panel` repository core
(`src/cart-item.js`: the `CartItem` widget and the `CartPanel` controller).

Modelling conventions:
* Shopify line-item property values are strings (or absent); JavaScript
  truthiness of such a value is `value present and non-empty`.
* `item.key || item.id` (the "item key" identity) is modelled by `keyOf`.
* The DOM subtree of a widget is modelled by `contentHTML` (the markup last
  written via `innerHTML`) together with `domGeneration`, a counter that is
  bumped every time `#render` replaces the subtree, and `quantityInputValue`,
  the last value programmatically written to the quantity control of the
  current subtree (`none` after a fresh render, since a fresh subtree's
  control carries only what the markup gave it).
* Network calls are modelled by passing the resolved response value
  explicitly; a promise chain is an `Except String` value, where `.error`
  is a rejected promise and `.ok` a fulfilled one.
-/

namespace CartPanelSpec

/-- Line-item `properties` bag: only the three markers the core reads. -/
structure Props where
  hide_in_cart : Option String
  ignore_price_in_subtotal : Option String
  cart_template : Option String
deriving DecidableEq, Repr

/-- JavaScript truthiness of an optional string property value. -/
def truthyStr : Option String → Bool
  | none => false
  | some s => s != ""

/-- Shopify line item, as read by the core. -/
structure Item where
  key : Option String
  id : String
  quantity : Nat
  line_price : Option Int
  properties : Option Props
deriving DecidableEq, Repr

/-- Truthiness of `item.properties?._hide_in_cart`. -/
def Item.hideFlag (i : Item) : Bool :=
  truthyStr (i.properties.bind Props.hide_in_cart)

/-- Truthiness of `item.properties?._ignore_price_in_subtotal`. -/
def Item.ignoreFlag (i : Item) : Bool :=
  truthyStr (i.properties.bind Props.ignore_price_in_subtotal)

/-- The item key identity `item.key || item.id` (empty string is falsy). -/
def keyOf (i : Item) : String :=
  match i.key with
  | some k => if k = "" then i.id else k
  | none => i.id

/-- Cart snapshot: the items plus the other snapshot fields (modelled
opaquely by `total_price` and an attribute bag `attrs`). -/
structure Cart where
  items : List Item
  total_price : Int
  attrs : List (String × String)
deriving DecidableEq, Repr

/-- `CartPanel.#getVisibleCartItems`: items without a truthy
`_hide_in_cart` marker, in snapshot order. -/
def getVisibleCartItems (c : Cart) : List Item :=
  c.items.filter (fun i => !i.hideFlag)

/-- Items counted toward the subtotal: no truthy `_ignore_price_in_subtotal`. -/
def pricedCartItems (c : Cart) : List Item :=
  c.items.filter (fun i => !i.ignoreFlag)

/-- The count written to `[data-content-cart-count]` elements by
`CartPanel.#renderCartCount`. -/
def renderCartCountValue (c : Cart) : Nat :=
  (getVisibleCartItems c).foldl (fun total i => total + i.quantity) 0

/-- The subtotal (in cents) written to `[data-content-cart-subtotal]`
elements by `CartPanel.#renderCartSubtotal`. -/
def renderCartSubtotalValue (c : Cart) : Int :=
  (pricedCartItems c).foldl (fun total i => total + i.line_price.getD 0) 0

/-- Result of `CartPanel.#addCalculatedFields`: a fresh object holding every
field of the input snapshot (the `cart` component, untouched) plus exactly
the two calculated fields. -/
structure CalcCart where
  cart : Cart
  calculated_count : Nat
  calculated_subtotal : Int
deriving DecidableEq, Repr

/-- `CartPanel.#addCalculatedFields cartData` =
`{ ...cartData, calculated_count, calculated_subtotal }`. -/
def addCalculatedFields (c : Cart) : CalcCart :=
  { cart := c
    calculated_count := (getVisibleCartItems c).foldl (fun total i => total + i.quantity) 0
    calculated_subtotal :=
      (c.items.filter (fun i => !i.ignoreFlag)).foldl
        (fun total i => total + i.line_price.getD 0) 0 }

/-! ## CartItem widget -/

/-- Widget states (`state` attribute of `cart-item`). -/
inductive WState where
  | ready
  | processing
  | destroying
  | appearing
deriving DecidableEq, Repr

/-- One rendered `cart-item` element. -/
structure Widget where
  key : String
  state : WState
  isDestroying : Bool
  isAppearing : Bool
  itemData : Item
  cartData : Option Cart
  lastRenderedHTML : String
  contentHTML : String
  domGeneration : Nat
  quantityInputValue : Option Nat
  destroyAnimations : Nat
  attached : Bool
deriving DecidableEq, Repr

/-- The static template registry `CartItem.#templates`: an association of
template names to template functions `(itemData, cartData) → HTML`. -/
def Templates : Type := List (String × (Item → Option Cart → String))

/-- Template name selection: `itemData.properties?._cart_template || 'default'`. -/
def templateNameOf (i : Item) : String :=
  match i.properties.bind Props.cart_template with
  | some s => if s = "" then "default" else s
  | none => "default"

/-- `CartItem.#generateTemplateHTML`: empty string when no templates are
registered or no template (named or default) matches; otherwise the chosen
template applied to the current item and cart data. -/
def generateTemplateHTML (tm : Templates) (item : Item) (cart : Option Cart) : String :=
  if tm.isEmpty then ""
  else
    match (List.lookup (templateNameOf item) tm).orElse (fun _ => List.lookup "default" tm) with
    | some f => f item cart
    | none => ""

/-- `CartItem.#render`: skipped entirely when no templates are registered;
otherwise sets the `key` attribute from the item data (when truthy), stores
the generated markup, and replaces the element's subtree (`innerHTML`),
which discards any programmatic quantity-control value. -/
def renderWidget (tm : Templates) (w : Widget) : Widget :=
  if tm.isEmpty then w
  else
    let k := keyOf w.itemData
    let h := generateTemplateHTML tm w.itemData w.cartData
    { w with
      key := if k = "" then w.key else k
      lastRenderedHTML := h
      contentHTML := h
      domGeneration := w.domGeneration + 1
      quantityInputValue := none }

/-- `CartItem.setState`: all four states are in the allowed set, so the
state attribute (mirrored into `#currentState`) is simply replaced. -/
def setWState (st : WState) (w : Widget) : Widget :=
  { w with state := st }

/-- `CartItem.#updateQuantityInput`: write the item's quantity to the
quantity control of the current subtree. -/
def updateQuantityInput (w : Widget) : Widget :=
  { w with quantityInputValue := some w.itemData.quantity }

/-- `CartItem.setData(itemData, cartData)`: store the new data, recompute the
markup, and either take the fast path (markup unchanged: only reset state to
`ready` and resynchronize the quantity control) or the full path (state to
`ready`, then a full re-render of the subtree). -/
def setData (tm : Templates) (w : Widget) (item : Item) (cart : Option Cart) : Widget :=
  let w1 := { w with
    itemData := item
    cartData := match cart with | some c => some c | none => w.cartData }
  let newHTML := generateTemplateHTML tm item w1.cartData
  if newHTML = w.lastRenderedHTML then
    updateQuantityInput (setWState WState.ready w1)
  else
    renderWidget tm (setWState WState.ready w1)

/-- `CartItem.destroyYourself`: a no-op when a destroy cycle is already in
progress; otherwise set the (never cleared) flag, move to `destroying` and
start exactly one height-collapse animation. -/
def destroyYourself (w : Widget) : Widget :=
  if w.isDestroying then w
  else
    { w with
      isDestroying := true
      state := WState.destroying
      destroyAnimations := w.destroyAnimations + 1 }

/-- `CartItem.#handleTransitionEnd`: on the end of the height transition,
a destroying widget detaches itself (`remove()`); an appearing widget clears
its explicit height and appearing flag. -/
def handleTransitionEnd (prop : String) (w : Widget) : Widget :=
  if prop = "height" then
    if w.isDestroying then { w with attached := false }
    else if w.isAppearing then { w with isAppearing := false }
    else w
  else w

/-- Programmatic construction `new CartItem(itemData, cartData, {animate})`
followed by `connectedCallback` (a fresh element has no attributes, so the
initial state is `appearing` when animation was requested and `ready`
otherwise, and `connectedCallback` renders and, for an appearing widget,
starts the entry animation). -/
def mkCartItem (tm : Templates) (item : Item) (cart : Cart) (animate : Bool) : Widget :=
  let w0 : Widget :=
    { key := ""
      state := if animate then WState.appearing else WState.ready
      isDestroying := false
      isAppearing := false
      itemData := item
      cartData := some cart
      lastRenderedHTML := ""
      contentHTML := ""
      domGeneration := 0
      quantityInputValue := none
      destroyAnimations := 0
      attached := true }
  let w1 := renderWidget tm w0
  if w1.state = WState.appearing then { w1 with isAppearing := true } else w1

/-- `CartItem.createAnimated`. -/
def createAnimated (tm : Templates) (item : Item) (cart : Cart) : Widget :=
  mkCartItem tm item cart true

/-! ## Reconciler (`CartPanel.#renderCartItems` and helpers)

Each phase returns the updated widget list (the children of the
`[data-content-cart-items]` container, in DOM order) together with the list
of calls it performed, recorded as `Eff` values. A widget on which
`destroyYourself()` was called stays in the list (detachment is
asynchronous); the `detach` transition is a separate event. -/

/-- A recorded call performed during reconciliation. -/
inductive Eff where
  | destroy (key : String)
  | setDataCall (key : String)
  | create (key : String)
deriving DecidableEq, Repr

/-- `CartPanel.#removeItemsFromDOM`: call `destroyYourself()` on every
rendered widget whose key is not among the new keys. -/
def removeItemsFromDOM (newKeys : List String) : List Widget → List Widget × List Eff
  | [] => ([], [])
  | w :: rest =>
    let r := removeItemsFromDOM newKeys rest
    if newKeys.contains w.key then (w :: r.1, r.2)
    else (destroyYourself w :: r.1, Eff.destroy w.key :: r.2)

/-- Helper for `updateItemsInDOM`: walk the rendered widgets in DOM order. -/
def updateItemsGo (tm : Templates) (visible : List Item) (cart : Cart) :
    List Widget → List Widget × List Eff
  | [] => ([], [])
  | w :: rest =>
    let r := updateItemsGo tm visible cart rest
    match visible.find? (fun it => keyOf it == w.key) with
    | some it => (setData tm w it (some cart) :: r.1, Eff.setDataCall w.key :: r.2)
    | none => (w :: r.1, r.2)

/-- `CartPanel.#updateItemsInDOM`: for every rendered widget whose key is
present among the visible items, call `setData` with that item and the
snapshot. -/
def updateItemsInDOM (tm : Templates) (cart : Cart) (ws : List Widget) :
    List Widget × List Eff :=
  updateItemsGo tm (getVisibleCartItems cart) cart ws

/-- Insert a widget immediately after the first rendered widget carrying the
anchor key (`insertAdjacentElement('afterend', ...)` on the `querySelector`
result). -/
def insertAfterKey (k : String) (nw : Widget) : List Widget → List Widget
  | [] => [nw]
  | x :: rest => if x.key == k then x :: nw :: rest else x :: insertAfterKey k nw rest

/-- The anchor scan of `CartPanel.#addItemsToDOM`: walk indices
`t-1, t-2, ..., 0` of the new key order and return the first key that is
currently rendered. -/
def anchorScan (ws : List Widget) (newKeys : List String) : Nat → Option String
  | 0 => none
  | i + 1 =>
    match newKeys[i]? with
    | some k => if ws.any (fun w => w.key == k) then some k else anchorScan ws newKeys i
    | none => anchorScan ws newKeys i

/-- One iteration of the `itemsToAdd.forEach` body of
`CartPanel.#addItemsToDOM`: create an animated widget and insert it at the
front (target index 0), after the nearest preceding rendered key, or at the
end when no preceding key is rendered (also when the key is absent from the
new order, where `indexOf` yields `-1`). -/
def insertOne (tm : Templates) (cart : Cart) (newKeys : List String)
    (ws : List Widget) (item : Item) : List Widget :=
  let nw := createAnimated tm item cart
  match newKeys.findIdx? (fun k => k == keyOf item) with
  | none => ws ++ [nw]
  | some 0 => nw :: ws
  | some (t + 1) =>
    match anchorScan ws newKeys (t + 1) with
    | some k => insertAfterKey k nw ws
    | none => ws ++ [nw]

/-- `CartPanel.#addItemsToDOM`: process the added items in snapshot order. -/
def addItemsToDOM (tm : Templates) (cart : Cart) (newKeys : List String)
    (ws : List Widget) : List Item → List Widget × List Eff
  | [] => (ws, [])
  | d :: rest =>
    let r := addItemsToDOM tm cart newKeys (insertOne tm cart newKeys ws d) rest
    (r.1, Eff.create (keyOf d) :: r.2)

/-- `CartPanel.#renderCartItems`: on the initial render, wipe the container
and bulk-create one non-animated widget per visible item, then clear the
initial-render flag; otherwise run the remove / update / add phases.
Returns (widgets, isInitialRender flag, recorded calls). -/
def renderCartItems (tm : Templates) (ws : List Widget) (isInitialRender : Bool)
    (cart : Cart) : List Widget × Bool × List Eff :=
  let visible := getVisibleCartItems cart
  if isInitialRender then
    (visible.map (fun d => mkCartItem tm d cart false), false,
      visible.map (fun d => Eff.create (keyOf d)))
  else
    let currentKeys := ws.map Widget.key
    let newKeys := visible.map keyOf
    let r1 := removeItemsFromDOM newKeys ws
    let r2 := updateItemsInDOM tm cart r1.1
    let itemsToAdd := visible.filter (fun d => !(currentKeys.contains (keyOf d)))
    let r3 := addItemsToDOM tm cart newKeys r2.1 itemsToAdd
    (r3.1, isInitialRender, r1.2 ++ r2.2 ++ r3.2)

/-! ## CartPanel controller -/

/-- A resolved value of `getCart` / `updateCartItem`: the parsed snapshot,
the `{ error: true, message }` object produced by the `catch` handler, or a
null body. -/
inductive CartResp where
  | ok (c : Cart)
  | errObj (msg : String)
  | nullResp
deriving DecidableEq, Repr

/-- Notifications emitted through `CartPanel.#emit`. -/
inductive Ev where
  | refreshed (c : CalcCart)
  | updated (c : CalcCart)
  | dataChanged (c : CalcCart)
deriving DecidableEq, Repr

/-- Controller state: rendered widgets, the `#isInitialRender` flag and the
stored `#currentCart` snapshot. -/
structure CPState where
  ws : List Widget
  isInitialRender : Bool
  currentCart : Option Cart
deriving DecidableEq, Repr

/-- `element.setState(...)` on the widget that originated an intent event,
identified by its key. -/
def setStateByKey (k : String) (st : WState) (ws : List Widget) : List Widget :=
  ws.map (fun w => if w.key == k then setWState st w else w)

/-- `CartPanel.refreshCart` from the point where the cart value is available
(fetched or passed in): on an error or null value, only log a warning;
otherwise store the snapshot, reconcile, and emit the `refreshed` and
`data-changed` notifications carrying the calculated fields.
Returns (state, emitted notifications, console log lines). -/
def refreshCart (tm : Templates) (s : CPState) (resp : CartResp) :
    CPState × List Ev × List String :=
  match resp with
  | CartResp.nullResp => (s, [], ["Cart data has error or is null"])
  | CartResp.errObj m => (s, [], ["Cart data has error or is null: " ++ m])
  | CartResp.ok c =>
    let r := renderCartItems tm s.ws s.isInitialRender c
    let wc := addCalculatedFields c
    ({ ws := r.1, isInitialRender := r.2.1, currentCart := some c },
      [Ev.refreshed wc, Ev.dataChanged wc], [])

/-- `CartPanel.#handleCartItemRemove` with the resolved value of
`updateCartItem(cartKey, 0)` passed explicitly: the originating widget is
set to `processing` first; on success the snapshot is stored, reconciled and
broadcast; otherwise the widget is set back to `ready` and the error only
logged. -/
def handleCartItemRemove (tm : Templates) (s : CPState) (k : String)
    (resp : CartResp) : CPState × List Ev × List String :=
  let ws1 := setStateByKey k WState.processing s.ws
  match resp with
  | CartResp.ok c =>
    let r := renderCartItems tm ws1 s.isInitialRender c
    let wc := addCalculatedFields c
    ({ ws := r.1, isInitialRender := r.2.1, currentCart := some c },
      [Ev.updated wc, Ev.dataChanged wc], [])
  | CartResp.errObj m =>
    ({ s with ws := setStateByKey k WState.ready ws1 }, [],
      ["Failed to remove cart item: " ++ m])
  | CartResp.nullResp =>
    ({ s with ws := setStateByKey k WState.ready ws1 }, [],
      ["Failed to remove cart item"])

/-- `CartPanel.#handleCartItemQuantityChange` with the resolved value of
`updateCartItem(cartKey, quantity)` passed explicitly; same shape as the
remove handler. -/
def handleCartItemQuantityChange (tm : Templates) (s : CPState) (k : String)
    (_quantity : Int) (resp : CartResp) : CPState × List Ev × List String :=
  let ws1 := setStateByKey k WState.processing s.ws
  match resp with
  | CartResp.ok c =>
    let r := renderCartItems tm ws1 s.isInitialRender c
    let wc := addCalculatedFields c
    ({ ws := r.1, isInitialRender := r.2.1, currentCart := some c },
      [Ev.updated wc, Ev.dataChanged wc], [])
  | CartResp.errObj m =>
    ({ s with ws := setStateByKey k WState.ready ws1 }, [],
      ["Failed to update cart item quantity: " ++ m])
  | CartResp.nullResp =>
    ({ s with ws := setStateByKey k WState.ready ws1 }, [],
      ["Failed to update cart item quantity"])

/-! ## CartClient (`CartPanel.getCart` / `CartPanel.updateCartItem`) -/

/-- A JSON scalar used in a request body. -/
inductive JVal where
  | str (s : String)
  | num (n : Int)
deriving DecidableEq, Repr

/-- An issued HTTP request. -/
structure Request where
  method : String
  url : String
  bodyFields : List (String × JVal)
deriving DecidableEq, Repr

/-- A fetch response: `ok` status flag, status text, parsed JSON body
(`none` models a null body). -/
structure HttpResponse where
  ok : Bool
  statusText : String
  jsonBody : Option Cart
deriving DecidableEq, Repr

/-- Promise `catch` combinator: a rejected promise is turned into a promise
fulfilled with the handler's value; a fulfilled promise passes through. -/
def pcatch {A : Type} (p : Except String A) (h : String → A) : Except String A :=
  match p with
  | Except.error e => Except.ok (h e)
  | Except.ok a => Except.ok a

/-- Convert a parsed response body to the resolved value. -/
def bodyToResp : Option Cart → CartResp
  | some c => CartResp.ok c
  | none => CartResp.nullResp

/-- The `then` handler shared by `getCart` and `updateCartItem`: throw the
status text on a non-ok response, otherwise resolve with the parsed body.
The argument is the promise produced by `fetch` (`.error` = network
failure). -/
def fetchThen (net : Except String HttpResponse) : Except String CartResp :=
  net.bind (fun r => if r.ok then Except.ok (bodyToResp r.jsonBody) else Except.error r.statusText)

/-- The promise returned by `CartPanel.getCart`: the `then` handler followed
by the `catch` handler, which logs and resolves with `{ error: true,
message }`. -/
def getCartPromise (net : Except String HttpResponse) : Except String CartResp :=
  pcatch (fetchThen net) (fun m => CartResp.errObj m)

/-- The single request issued by one `getCart()` call. -/
def getCartRequests : List Request :=
  [{ method := "GET", url := "/cart.json", bodyFields := [] }]

/-- The promise returned by `CartPanel.updateCartItem`: identical handler
chain to `getCart`. -/
def updateCartItemPromise (net : Except String HttpResponse) : Except String CartResp :=
  pcatch (fetchThen net) (fun m => CartResp.errObj m)

/-- The single request issued by one `updateCartItem(key, quantity)` call:
a POST whose JSON body is exactly `{ id: key, quantity: quantity }`. -/
def updateCartItemRequests (key : String) (quantity : Int) : List Request :=
  [{ method := "POST", url := "/cart/change.json",
     bodyFields := [("id", JVal.str key), ("quantity", JVal.num quantity)] }]

/-! ## Asynchronous widget events and the reachability relation -/

/-- Widget-level operations that can act on one rendered widget. -/
inductive WOp where
  | destroyOp
  | transEnd (prop : String)
  | setStateOp (st : WState)
  | setDataOp (item : Item) (cart : Option Cart)
deriving Repr

/-- Apply a widget-level operation. -/
def applyWOp (tm : Templates) : WOp → Widget → Widget
  | WOp.destroyOp => destroyYourself
  | WOp.transEnd prop => handleTransitionEnd prop
  | WOp.setStateOp st => setWState st
  | WOp.setDataOp item cart => fun w => setData tm w item cart

/-- Apply a sequence of widget-level operations, oldest first. -/
def applyWOps (tm : Templates) (ops : List WOp) (w : Widget) : Widget :=
  ops.foldl (fun acc op => applyWOp tm op acc) w

/-- Apply a function to the widget at index `i` (no-op when out of range). -/
def applyAt (i : Nat) (f : Widget → Widget) (ws : List Widget) : List Widget :=
  match ws[i]? with
  | some w => ws.set i (f w)
  | none => ws

/-- Keys of the rendered widget collection, in DOM order. -/
def widgetKeys (ws : List Widget) : List String :=
  ws.map Widget.key

/-- Serialized system steps: a reconciliation against a snapshot whose
visible items have pairwise distinct keys (via refresh or either mutation
handler) runs to completion — including the insertion batch the code
defers behind a short timer — before the next step, interleaved with the
asynchronous detachment of a widget whose destroy animation finished and
asynchronous per-widget events. This serialization is a genuine
restriction of the program's schedules: the fine-grained relation `PStepF`
below also models a reconciliation starting while a previous insertion
batch is still pending, and there the no-duplicate-key invariant fails.
The asynchronous events that occur outside reconciliation (transition
ends, state attribute writes, the guarded destroy) never touch the key
attribute, captured by the key-preservation hypothesis; the key-writing
`setData` runs only inside reconciliation, which the reconciliation steps
cover. -/
inductive PStep (tm : Templates) : CPState → CPState → Prop where
  | refresh (s : CPState) (resp : CartResp)
      (h : ∀ c, resp = CartResp.ok c → (((getVisibleCartItems c).map keyOf).Nodup)) :
      PStep tm s (refreshCart tm s resp).1
  | removeIntent (s : CPState) (k : String) (resp : CartResp)
      (h : ∀ c, resp = CartResp.ok c → (((getVisibleCartItems c).map keyOf).Nodup)) :
      PStep tm s (handleCartItemRemove tm s k resp).1
  | quantityIntent (s : CPState) (k : String) (q : Int) (resp : CartResp)
      (h : ∀ c, resp = CartResp.ok c → (((getVisibleCartItems c).map keyOf).Nodup)) :
      PStep tm s (handleCartItemQuantityChange tm s k q resp).1
  | detach (s : CPState) (i : Nat) (w : Widget)
      (hw : s.ws[i]? = some w) (hd : w.isDestroying = true) :
      PStep tm s { s with ws := s.ws.eraseIdx i }
  | widgetEvent (s : CPState) (i : Nat) (op : WOp)
      (hop : ∀ w, (applyWOp tm op w).key = w.key) :
      PStep tm s { s with ws := applyAt i (applyWOp tm op) s.ws }

/-- The empty controller state before the first reconciliation. -/
def initialCPState : CPState :=
  { ws := [], isInitialRender := true, currentCart := none }

/-- Reachability of a controller state through any sequence of steps. -/
def Reachable (tm : Templates) (s : CPState) : Prop :=
  Relation.ReflTransGen (PStep tm) initialCPState s

/-! ## Helper lemmas -/

/-- Folding an accumulating sum equals the initial value plus the sum of the
mapped list (shape of every `reduce((total, item) => total + f(item), 0)`
in the source). -/
theorem foldl_add_map {M : Type} [AddCommMonoid M] (f : Item → M) :
    ∀ (l : List Item) (a : M), l.foldl (fun t i => t + f i) a = a + (l.map f).sum := by
  intro l
  induction l with
  | nil => intro a; simp
  | cons x xs ih => intro a; simp [ih, add_assoc]

/-- A filtered sum is determined by the per-item projection of its flag and
its summand. -/
theorem filter_map_sum_congr {M : Type} [AddCommMonoid M]
    (flag : Item → Bool) (pr : Item → M) :
    ∀ (l l' : List Item),
      l.map (fun i => (flag i, pr i)) = l'.map (fun i => (flag i, pr i)) →
      ((l.filter (fun i => !flag i)).map pr).sum
        = ((l'.filter (fun i => !flag i)).map pr).sum := by
  intro l
  induction l with
  | nil =>
    intro l' h
    cases l' with
    | nil => rfl
    | cons y ys => simp at h
  | cons x xs ih =>
    intro l' h
    cases l' with
    | nil => simp at h
    | cons y ys =>
      simp only [List.map_cons, List.cons.injEq, Prod.mk.injEq] at h
      obtain ⟨⟨hf, hp⟩, hrest⟩ := h
      have hxs := ih ys hrest
      by_cases hb : flag x = true
      · have hby : flag y = true := hf ▸ hb
        simp [List.filter_cons, hb, hby, hxs]
      · have hbx : flag x = false := by simpa using hb
        have hby : flag y = false := hf ▸ hbx
        simp [List.filter_cons, hbx, hby, hxs, hp]

/-! ## Claim C4 -/

/-- C4. The broadcast visible count is the sum of `quantity` over the items
without a truthy `_hide_in_cart` marker, the broadcast subtotal is the sum
of line price over the items without a truthy `_ignore_price_in_subtotal`
marker (both for the calculated payload fields and for the DOM-rendered
count/subtotal), and the two predicates are independent: the subtotal is
determined by the (ignore-flag, line-price) projection alone — so a hidden
item still counts toward it unless also price-ignored — and the count is
determined by the (hide-flag, quantity) projection alone — so an unpriced
item still counts toward it unless also hidden. -/
theorem calculated_fields_visibility_pricing (c : Cart) :
    (addCalculatedFields c).calculated_count
        = ((c.items.filter (fun i => !i.hideFlag)).map Item.quantity).sum
    ∧ (addCalculatedFields c).calculated_subtotal
        = ((c.items.filter (fun i => !i.ignoreFlag)).map (fun i => i.line_price.getD 0)).sum
    ∧ renderCartCountValue c
        = ((c.items.filter (fun i => !i.hideFlag)).map Item.quantity).sum
    ∧ renderCartSubtotalValue c
        = ((c.items.filter (fun i => !i.ignoreFlag)).map (fun i => i.line_price.getD 0)).sum
    ∧ (∀ c' : Cart,
        c.items.map (fun i => (i.ignoreFlag, i.line_price)) =
          c'.items.map (fun i => (i.ignoreFlag, i.line_price)) →
        (addCalculatedFields c).calculated_subtotal
          = (addCalculatedFields c').calculated_subtotal)
    ∧ (∀ c' : Cart,
        c.items.map (fun i => (i.hideFlag, i.quantity)) =
          c'.items.map (fun i => (i.hideFlag, i.quantity)) →
        (addCalculatedFields c).calculated_count
          = (addCalculatedFields c').calculated_count)
    ∧ (∀ (i : Item) (tp : Int) (ats : List (String × String)),
        i.ignoreFlag = false →
        (addCalculatedFields { items := i :: c.items, total_price := tp, attrs := ats }).calculated_subtotal
          = i.line_price.getD 0 + (addCalculatedFields c).calculated_subtotal)
    ∧ (∀ (i : Item) (tp : Int) (ats : List (String × String)),
        i.hideFlag = false →
        (addCalculatedFields { items := i :: c.items, total_price := tp, attrs := ats }).calculated_count
          = i.quantity + (addCalculatedFields c).calculated_count) := by
  have hcount : ∀ c : Cart, (addCalculatedFields c).calculated_count
      = ((c.items.filter (fun i => !i.hideFlag)).map Item.quantity).sum := by
    intro c
    simp [addCalculatedFields, getVisibleCartItems, foldl_add_map Item.quantity]
  have hsub : ∀ c : Cart, (addCalculatedFields c).calculated_subtotal
      = ((c.items.filter (fun i => !i.ignoreFlag)).map (fun i => i.line_price.getD 0)).sum := by
    intro c
    simp [addCalculatedFields, foldl_add_map (fun i : Item => i.line_price.getD 0)]
  refine ⟨hcount c, hsub c, ?_, ?_, ?_, ?_, ?_, ?_⟩
  · simp [renderCartCountValue, getVisibleCartItems, foldl_add_map Item.quantity]
  · simp [renderCartSubtotalValue, pricedCartItems,
      foldl_add_map (fun i : Item => i.line_price.getD 0)]
  · intro c' h
    rw [hsub c, hsub c']
    refine filter_map_sum_congr Item.ignoreFlag (fun i => i.line_price.getD 0) _ _ ?_
    have : ∀ l : List Item, l.map (fun i => (i.ignoreFlag, i.line_price.getD 0))
        = (l.map (fun i => (i.ignoreFlag, i.line_price))).map
            (fun p => (p.1, p.2.getD 0)) := by
      intro l; simp [List.map_map]
    rw [this, this, h]
  · intro c' h
    rw [hcount c, hcount c']
    exact filter_map_sum_congr Item.hideFlag Item.quantity _ _ h
  · intro i tp ats hig
    rw [hsub, hsub]
    simp [List.filter_cons, hig]
  · intro i tp ats hh
    rw [hcount, hcount]
    simp [List.filter_cons, hh]

/-- Concrete sample data for witnesses. -/
def sampleProps (h ig : Option String) : Props :=
  { hide_in_cart := h, ignore_price_in_subtotal := ig, cart_template := none }

/-- Sample line item. -/
def sampleItem (k : String) (q : Nat) (p : Int) (h ig : Option String) : Item :=
  { key := some k, id := k, quantity := q, line_price := some p,
    properties := some (sampleProps h ig) }

/-- Sample cart: a normal item, a hidden-but-priced item, a visible
price-ignored item, and a hidden price-ignored item. -/
def sampleCart : Cart :=
  { items :=
      [sampleItem "a" 2 1000 none none,
       sampleItem "b" 1 500 (some "true") none,
       sampleItem "c" 3 700 none (some "true"),
       sampleItem "d" 1 300 (some "true") (some "true")],
    total_price := 2500, attrs := [] }

/-- A cart with the same (flag, price) and (flag, quantity) projections as
`sampleCart` but different keys. -/
def sampleCartRenamed : Cart :=
  { items :=
      [sampleItem "w" 2 1000 none none,
       sampleItem "x" 1 500 (some "true") none,
       sampleItem "y" 3 700 none (some "true"),
       sampleItem "z" 1 300 (some "true") (some "true")],
    total_price := 0, attrs := [("note", "renamed")] }

/-- Witness for C4 at concrete carts: the hypotheses of the independence
conjuncts are discharged by evaluation. -/
theorem calculated_fields_visibility_pricing_witness :
    (addCalculatedFields sampleCart).calculated_subtotal
        = (addCalculatedFields sampleCartRenamed).calculated_subtotal
    ∧ (addCalculatedFields sampleCart).calculated_count
        = (addCalculatedFields sampleCartRenamed).calculated_count
    ∧ (addCalculatedFields
        { items := sampleItem "h" 4 900 (some "true") none :: sampleCart.items,
          total_price := 0, attrs := [] }).calculated_subtotal
        = (900 : Int) + (addCalculatedFields sampleCart).calculated_subtotal :=
  ⟨(calculated_fields_visibility_pricing sampleCart).2.2.2.2.1 sampleCartRenamed (by decide),
   (calculated_fields_visibility_pricing sampleCart).2.2.2.2.2.1 sampleCartRenamed (by decide),
   (calculated_fields_visibility_pricing sampleCart).2.2.2.2.2.2.1
     (sampleItem "h" 4 900 (some "true") none) 0 [] (by decide)⟩

/-! ## Claim C10 -/

/-- C10. The notification payload built by `#addCalculatedFields` is a fresh
value carrying the whole input snapshot unchanged (its `cart` component)
plus exactly the two calculated fields, and the `refreshCart` success path
stores the original snapshot itself as `currentSnapshot` — the calculated
fields live only in the payload, never in the stored snapshot (whose type
has no such fields). -/
theorem addCalculatedFields_frame (tm : Templates) (s : CPState) (c : Cart) :
    (addCalculatedFields c).cart = c
    ∧ (refreshCart tm s (CartResp.ok c)).1.currentCart = some c
    ∧ (refreshCart tm s (CartResp.ok c)).2.1
        = [Ev.refreshed (addCalculatedFields c), Ev.dataChanged (addCalculatedFields c)] :=
  ⟨rfl, rfl, rfl⟩

/-! ## Claim C3 -/

/-- Writing the state attribute never changes the widget's key. -/
theorem setWState_key (st : WState) (w : Widget) : (setWState st w).key = w.key := rfl

/-- Setting the originating widget to `processing` and then back to `ready`
amounts to a single state write to `ready`; nothing else about any widget
changes. -/
theorem setStateByKey_ready_after_processing (k : String) (ws : List Widget) :
    setStateByKey k WState.ready (setStateByKey k WState.processing ws)
      = ws.map (fun w => if w.key == k then setWState WState.ready w else w) := by
  simp only [setStateByKey, List.map_map]
  refine List.map_congr_left ?_
  intro w _
  by_cases hw : w.key == k
  · simp [Function.comp, hw, setWState]
  · simp [Function.comp, hw]

/-- C3. On any error result (the `catch`-produced error object or a null
body), `refreshCart` returns with the whole controller state unchanged, no
notification emitted and only a console line; each per-item mutation handler
returns a state whose only change is that the originating widget's state
attribute went `processing` and then back to `ready` (its rendered content,
data and every other widget untouched), with `currentSnapshot` unchanged, no
notification emitted and only a console line. -/
theorem failure_leaves_state (tm : Templates) (s : CPState) (m k : String) (q : Int) :
    refreshCart tm s (CartResp.errObj m)
        = (s, [], ["Cart data has error or is null: " ++ m])
    ∧ refreshCart tm s CartResp.nullResp
        = (s, [], ["Cart data has error or is null"])
    ∧ handleCartItemRemove tm s k (CartResp.errObj m)
        = ({ s with ws := s.ws.map (fun w => if w.key == k then setWState WState.ready w else w) },
           [], ["Failed to remove cart item: " ++ m])
    ∧ handleCartItemRemove tm s k CartResp.nullResp
        = ({ s with ws := s.ws.map (fun w => if w.key == k then setWState WState.ready w else w) },
           [], ["Failed to remove cart item"])
    ∧ handleCartItemQuantityChange tm s k q (CartResp.errObj m)
        = ({ s with ws := s.ws.map (fun w => if w.key == k then setWState WState.ready w else w) },
           [], ["Failed to update cart item quantity: " ++ m])
    ∧ handleCartItemQuantityChange tm s k q CartResp.nullResp
        = ({ s with ws := s.ws.map (fun w => if w.key == k then setWState WState.ready w else w) },
           [], ["Failed to update cart item quantity"]) := by
  refine ⟨rfl, rfl, ?_, ?_, ?_, ?_⟩ <;>
    simp [handleCartItemRemove, handleCartItemQuantityChange,
      setStateByKey_ready_after_processing]

/-! ## Claim C8 -/

/-- C8. The `getCart` and `updateCartItem` promise chains always fulfill
(the trailing `catch` turns every rejection — network failure or the
non-2xx status thrown by the `then` handler — into a fulfilled tagged error
object carrying the message), a success response resolves to the parsed
snapshot, the mutation issues exactly one POST whose JSON body is exactly
`{ id: key, quantity: quantity }`, and each operation issues exactly one
request (no retry). -/
theorem cart_client_error_contract (net : Except String HttpResponse) (k : String) (q : Int) :
    (∃ r, getCartPromise net = Except.ok r)
    ∧ (∃ r, updateCartItemPromise net = Except.ok r)
    ∧ (∀ m, net = Except.error m →
        getCartPromise net = Except.ok (CartResp.errObj m)
        ∧ updateCartItemPromise net = Except.ok (CartResp.errObj m))
    ∧ (∀ resp, net = Except.ok resp → resp.ok = false →
        getCartPromise net = Except.ok (CartResp.errObj resp.statusText)
        ∧ updateCartItemPromise net = Except.ok (CartResp.errObj resp.statusText))
    ∧ (∀ resp c, net = Except.ok resp → resp.ok = true → resp.jsonBody = some c →
        getCartPromise net = Except.ok (CartResp.ok c)
        ∧ updateCartItemPromise net = Except.ok (CartResp.ok c))
    ∧ updateCartItemRequests k q
        = [{ method := "POST", url := "/cart/change.json",
             bodyFields := [("id", JVal.str k), ("quantity", JVal.num q)] }]
    ∧ (updateCartItemRequests k q).length = 1
    ∧ getCartRequests.length = 1 := by
  refine ⟨?_, ?_, ?_, ?_, ?_, rfl, rfl, rfl⟩
  · cases net with
    | error m => exact ⟨CartResp.errObj m, rfl⟩
    | ok resp =>
      by_cases h : resp.ok = true
      · exact ⟨bodyToResp resp.jsonBody, by simp [getCartPromise, fetchThen, Except.bind, pcatch, h]⟩
      · exact ⟨CartResp.errObj resp.statusText, by
          simp [getCartPromise, fetchThen, Except.bind, pcatch, h]⟩
  · cases net with
    | error m => exact ⟨CartResp.errObj m, rfl⟩
    | ok resp =>
      by_cases h : resp.ok = true
      · exact ⟨bodyToResp resp.jsonBody, by simp [updateCartItemPromise, fetchThen, Except.bind, pcatch, h]⟩
      · exact ⟨CartResp.errObj resp.statusText, by
          simp [updateCartItemPromise, fetchThen, Except.bind, pcatch, h]⟩
  · intro m hm
    subst hm
    exact ⟨rfl, rfl⟩
  · intro resp hr hok
    subst hr
    constructor <;> simp [getCartPromise, updateCartItemPromise, fetchThen, Except.bind, pcatch, hok]
  · intro resp c hr hok hb
    subst hr
    constructor <;>
      simp [getCartPromise, updateCartItemPromise, fetchThen, Except.bind, pcatch, hok, hb, bodyToResp]

/-- Witness for C8: the concrete failure and success cases. -/
theorem cart_client_error_contract_witness :
    getCartPromise (Except.error "network down") = Except.ok (CartResp.errObj "network down")
    ∧ updateCartItemPromise (Except.ok { ok := false, statusText := "Not Found", jsonBody := none })
        = Except.ok (CartResp.errObj "Not Found")
    ∧ getCartPromise (Except.ok { ok := true, statusText := "OK", jsonBody := some sampleCart })
        = Except.ok (CartResp.ok sampleCart) :=
  ⟨((cart_client_error_contract (Except.error "network down") "a" 1).2.2.1
      "network down" rfl).1,
   ((cart_client_error_contract
        (Except.ok { ok := false, statusText := "Not Found", jsonBody := none }) "a" 1).2.2.2.1
      { ok := false, statusText := "Not Found", jsonBody := none } rfl rfl).2,
   ((cart_client_error_contract
        (Except.ok { ok := true, statusText := "OK", jsonBody := some sampleCart }) "a" 1).2.2.2.2.1
      { ok := true, statusText := "OK", jsonBody := some sampleCart } sampleCart rfl rfl rfl).1⟩

/-! ## Claim C5 -/

/-- C5. When the markup freshly computed from the new item data is
string-equal to the last-rendered markup, `setData` leaves the DOM subtree
alone (`contentHTML` and `domGeneration` unchanged) and only stores the new
data, resets the state to `ready` and resynchronizes the quantity control to
the item's quantity; when the markup differs (and a template is registered,
which is the only way a non-trivial markup can ever have been rendered),
`setData` performs a full re-render: fresh subtree, bumped generation, new
markup recorded. -/
theorem setData_markup_short_circuit (tm : Templates) (w : Widget) (item : Item)
    (cart : Option Cart) :
    (generateTemplateHTML tm item (match cart with | some c => some c | none => w.cartData)
        = w.lastRenderedHTML →
      setData tm w item cart
        = { w with
            itemData := item
            cartData := match cart with | some c => some c | none => w.cartData
            state := WState.ready
            quantityInputValue := some item.quantity })
    ∧ (generateTemplateHTML tm item (match cart with | some c => some c | none => w.cartData)
        ≠ w.lastRenderedHTML → tm ≠ [] →
      setData tm w item cart
        = { w with
            itemData := item
            cartData := match cart with | some c => some c | none => w.cartData
            state := WState.ready
            key := if keyOf item = "" then w.key else keyOf item
            lastRenderedHTML :=
              generateTemplateHTML tm item (match cart with | some c => some c | none => w.cartData)
            contentHTML :=
              generateTemplateHTML tm item (match cart with | some c => some c | none => w.cartData)
            domGeneration := w.domGeneration + 1
            quantityInputValue := none }) := by
  have hne : tm ≠ [] → tm.isEmpty = false := by
    intro h
    cases tm with
    | nil => exact absurd rfl h
    | cons a l => rfl
  cases cart with
  | none =>
    constructor
    · intro h
      simp only [setData]
      rw [if_pos h]
      rfl
    · intro h htm
      simp only [setData]
      rw [if_neg h]
      simp only [renderWidget, hne htm, Bool.false_eq_true, if_false]
      rfl
  | some c =>
    constructor
    · intro h
      simp only [setData]
      rw [if_pos h]
      rfl
    · intro h htm
      simp only [setData]
      rw [if_neg h]
      simp only [renderWidget, hne htm, Bool.false_eq_true, if_false]
      rfl

/-- A sample template registry: one default template rendering the key and
the quantity. -/
def sampleTemplates : Templates :=
  [("default", fun i _ => "row[" ++ keyOf i ++ ":" ++ toString i.quantity ++ "]")]

/-- Sample widget as produced for item `a` of the sample cart. -/
def sampleWidgetA : Widget :=
  mkCartItem sampleTemplates (sampleItem "a" 2 1000 none none) sampleCart false

/-- Witness for C5: with the sample template, re-sending the same item takes
the fast path (no new DOM generation, quantity resynchronized), and sending
a changed quantity takes the full-render path (generation bumped). -/
theorem setData_markup_short_circuit_witness :
    setData sampleTemplates sampleWidgetA (sampleItem "a" 2 1000 none none) (some sampleCart)
      = { sampleWidgetA with
          itemData := sampleItem "a" 2 1000 none none
          cartData := some sampleCart
          state := WState.ready
          quantityInputValue := some 2 }
    ∧ (setData sampleTemplates sampleWidgetA (sampleItem "a" 5 1000 none none)
          (some sampleCart)).domGeneration
        = sampleWidgetA.domGeneration + 1 := by
  constructor
  · exact (setData_markup_short_circuit sampleTemplates sampleWidgetA
      (sampleItem "a" 2 1000 none none) (some sampleCart)).1 (by decide)
  · have h := (setData_markup_short_circuit sampleTemplates sampleWidgetA
      (sampleItem "a" 5 1000 none none) (some sampleCart)).2 (by decide)
      (by simp [sampleTemplates])
    rw [h]

/-! ## Claim C6 -/

/-- Re-rendering never touches the destroy machinery, the state attribute or
attachment. -/
theorem renderWidget_preserves (tm : Templates) (w : Widget) :
    (renderWidget tm w).isDestroying = w.isDestroying
    ∧ (renderWidget tm w).destroyAnimations = w.destroyAnimations
    ∧ (renderWidget tm w).state = w.state
    ∧ (renderWidget tm w).attached = w.attached := by
  unfold renderWidget
  split <;> simp

/-- Updating a widget's data never touches the destroy machinery. -/
theorem setData_preserves_flags (tm : Templates) (w : Widget) (item : Item)
    (cart : Option Cart) :
    (setData tm w item cart).isDestroying = w.isDestroying
    ∧ (setData tm w item cart).destroyAnimations = w.destroyAnimations := by
  by_cases hc : generateTemplateHTML tm item
      (match cart with | some c => some c | none => w.cartData) = w.lastRenderedHTML
  · simp [setData, hc, updateQuantityInput, setWState]
  · by_cases ht : tm.isEmpty
    · simp [setData, hc, renderWidget, ht, setWState]
    · simp [setData, hc, renderWidget, ht, setWState]

/-- Every widget-level operation preserves a set `isDestroying` flag and,
once it is set, the count of removal animations started. -/
theorem applyWOp_preserves_destroying (tm : Templates) (op : WOp) (w : Widget)
    (h : w.isDestroying = true) :
    (applyWOp tm op w).isDestroying = true
    ∧ (applyWOp tm op w).destroyAnimations = w.destroyAnimations := by
  cases op with
  | destroyOp => simp [applyWOp, destroyYourself, h]
  | transEnd prop =>
    by_cases hp : prop = "height" <;> simp [applyWOp, handleTransitionEnd, hp, h]
  | setStateOp st => simp [applyWOp, setWState, h]
  | setDataOp item cart =>
    have hs := setData_preserves_flags tm w item cart
    simp only [applyWOp]
    exact ⟨by rw [hs.1]; exact h, hs.2⟩

/-- C6. A second (or any later) `destroyYourself()` call during a destroy
cycle is a no-op: on a widget not yet destroying, the call sets the flag,
moves to `destroying` and starts exactly one removal animation; on a widget
already destroying it returns it unchanged, so the composition is
idempotent. Once the flag is set, no sequence of widget operations ever
clears it or starts another removal animation, and a second height
transition end on an already-detached destroying widget is a no-op, so the
widget is detached exactly once. -/
theorem destroyYourself_idempotent (tm : Templates) (w : Widget) (ops : List WOp) :
    destroyYourself (destroyYourself w) = destroyYourself w
    ∧ (w.isDestroying = true → destroyYourself w = w)
    ∧ (w.isDestroying = false →
        (destroyYourself w).isDestroying = true
        ∧ (destroyYourself w).destroyAnimations = w.destroyAnimations + 1
        ∧ (destroyYourself w).state = WState.destroying)
    ∧ (w.isDestroying = true →
        (applyWOps tm ops w).isDestroying = true
        ∧ (applyWOps tm ops w).destroyAnimations = w.destroyAnimations)
    ∧ (w.isDestroying = true → w.attached = false →
        handleTransitionEnd "height" w = w) := by
  have hops : ∀ (ops : List WOp) (w : Widget), w.isDestroying = true →
      (applyWOps tm ops w).isDestroying = true
      ∧ (applyWOps tm ops w).destroyAnimations = w.destroyAnimations := by
    intro ops
    induction ops with
    | nil => intro w h; exact ⟨h, rfl⟩
    | cons op rest ih =>
      intro w h
      have h1 := applyWOp_preserves_destroying tm op w h
      have h2 := ih (applyWOp tm op w) h1.1
      exact ⟨h2.1, h2.2.trans h1.2⟩
  refine ⟨?_, ?_, ?_, hops ops w, ?_⟩
  · by_cases h : w.isDestroying = true
    · simp [destroyYourself, h]
    · have h0 : w.isDestroying = false := by simpa using h
      simp [destroyYourself, h0]
  · intro h; simp [destroyYourself, h]
  · intro h; simp [destroyYourself, h]
  · intro h ha
    cases w with
    | mk k st d ap idt cd lrh ch dg qiv da att => simp_all [handleTransitionEnd]

/-- Witness for C6 at a concrete destroying widget: a later destroy call and
a full event sequence leave the flag set and the animation count at one. -/
theorem destroyYourself_idempotent_witness :
    (destroyYourself sampleWidgetA).isDestroying = true
    ∧ (applyWOps sampleTemplates [WOp.destroyOp, WOp.transEnd "height", WOp.destroyOp]
          (destroyYourself sampleWidgetA)).isDestroying = true
    ∧ (applyWOps sampleTemplates [WOp.destroyOp, WOp.transEnd "height", WOp.destroyOp]
          (destroyYourself sampleWidgetA)).destroyAnimations
        = (destroyYourself sampleWidgetA).destroyAnimations := by
  have h := destroyYourself_idempotent sampleTemplates (destroyYourself sampleWidgetA)
    [WOp.destroyOp, WOp.transEnd "height", WOp.destroyOp]
  have h1 : (destroyYourself sampleWidgetA).isDestroying = true := by decide
  exact ⟨h1, (h.2.2.2.1 h1).1, (h.2.2.2.1 h1).2⟩

/-! ## Claim C7 -/

/-- Keys of the recorded `destroyYourself` calls. -/
def destroyedKeys (effs : List Eff) : List String :=
  effs.filterMap (fun e => match e with | Eff.destroy k => some k | _ => none)

/-- Keys of the recorded `setData` calls. -/
def setDataKeys (effs : List Eff) : List String :=
  effs.filterMap (fun e => match e with | Eff.setDataCall k => some k | _ => none)

/-- Keys of the recorded widget creations. -/
def createdKeys (effs : List Eff) : List String :=
  effs.filterMap (fun e => match e with | Eff.create k => some k | _ => none)

/-- A widget created without the animate option starts (and stays) in
`ready` state with no entry animation. -/
theorem mkCartItem_no_animate (tm : Templates) (d : Item) (c : Cart) :
    (mkCartItem tm d c false).state = WState.ready
    ∧ (mkCartItem tm d c false).isAppearing = false := by
  unfold mkCartItem renderWidget
  by_cases ht : tm.isEmpty <;> simp [ht]

/-- C7. With the initial-render flag still set, reconciliation skips the
diffing phases entirely: it bulk-creates exactly one widget per visible
item (discarding whatever was in the container), every created widget is in
`ready` state — never `appearing` — no destroy and no `setData` call is
made, and the flag comes back cleared so every later reconciliation takes
the diffing path. -/
theorem initial_render_bulk (tm : Templates) (ws : List Widget) (c : Cart) :
    renderCartItems tm ws true c
      = ((getVisibleCartItems c).map (fun d => mkCartItem tm d c false), false,
         (getVisibleCartItems c).map (fun d => Eff.create (keyOf d)))
    ∧ (∀ w ∈ (renderCartItems tm ws true c).1,
        w.state = WState.ready ∧ w.isAppearing = false)
    ∧ destroyedKeys (renderCartItems tm ws true c).2.2 = []
    ∧ setDataKeys (renderCartItems tm ws true c).2.2 = [] := by
  refine ⟨rfl, ?_, ?_, ?_⟩
  · intro w hw
    have hm : (renderCartItems tm ws true c).1
        = (getVisibleCartItems c).map (fun d => mkCartItem tm d c false) := rfl
    rw [hm] at hw
    obtain ⟨d, _, rfl⟩ := List.mem_map.1 hw
    exact mkCartItem_no_animate tm d c
  · have hm : (renderCartItems tm ws true c).2.2
        = (getVisibleCartItems c).map (fun d => Eff.create (keyOf d)) := rfl
    rw [hm]
    simp [destroyedKeys, List.filterMap_map, Function.comp]
  · have hm : (renderCartItems tm ws true c).2.2
        = (getVisibleCartItems c).map (fun d => Eff.create (keyOf d)) := rfl
    rw [hm]
    simp [setDataKeys, List.filterMap_map, Function.comp]

/-- Witness for C7: the first widget of the sample bulk render is in the
result and is `ready`, and no destroy call was recorded. -/
theorem initial_render_bulk_witness :
    (mkCartItem sampleTemplates (sampleItem "a" 2 1000 none none) sampleCart false).state
        = WState.ready
    ∧ (mkCartItem sampleTemplates (sampleItem "a" 2 1000 none none) sampleCart false).isAppearing
        = false
    ∧ destroyedKeys (renderCartItems sampleTemplates [] true sampleCart).2.2 = [] :=
  ⟨((initial_render_bulk sampleTemplates [] sampleCart).2.1 _ (by decide)).1,
   ((initial_render_bulk sampleTemplates [] sampleCart).2.1 _ (by decide)).2,
   (initial_render_bulk sampleTemplates [] sampleCart).2.2.1⟩

/-! ## Claim C1 -/

/-- List `contains` agrees with membership for strings. -/
theorem contains_iff_mem (l : List String) (a : String) : l.contains a = true ↔ a ∈ l :=
  List.elem_iff

/-- Negative form of `contains_iff_mem`. -/
theorem contains_eq_false_iff (l : List String) (a : String) :
    l.contains a = false ↔ a ∉ l := by
  rw [← Bool.not_eq_true, contains_iff_mem]

/-- Starting a destroy cycle never changes the widget's key. -/
theorem destroyYourself_key (w : Widget) : (destroyYourself w).key = w.key := by
  unfold destroyYourself
  split <;> rfl

/-- When the new item carries the widget's own key, `setData` keeps the key
(re-setting the attribute to the same value on the full-render path). -/
theorem setData_key (tm : Templates) (w : Widget) (item : Item) (cart : Option Cart)
    (h : keyOf item = w.key) : (setData tm w item cart).key = w.key := by
  by_cases hc : generateTemplateHTML tm item
      (match cart with | some c => some c | none => w.cartData) = w.lastRenderedHTML
  · simp [setData, hc, updateQuantityInput, setWState]
  · by_cases ht : tm.isEmpty
    · simp [setData, hc, renderWidget, ht, setWState]
    · simp [setData, hc, renderWidget, ht, setWState, h]

/-- The removal phase: the widgets whose keys are absent from the new keys —
exactly those — receive the destroy call; the container keeps all widgets. -/
theorem removeItemsFromDOM_spec (nk : List String) :
    ∀ ws : List Widget,
      (removeItemsFromDOM nk ws).1
        = ws.map (fun w => if nk.contains w.key then w else destroyYourself w)
      ∧ (removeItemsFromDOM nk ws).2
        = (ws.filter (fun w => !(nk.contains w.key))).map (fun w => Eff.destroy w.key) := by
  intro ws
  induction ws with
  | nil => exact ⟨rfl, rfl⟩
  | cons w rest ih =>
    by_cases hm : w.key ∈ nk
    · simp [removeItemsFromDOM, hm, ih.1, ih.2, List.filter_cons]
    · simp [removeItemsFromDOM, hm, ih.1, ih.2, List.filter_cons]

/-- The update phase: keys are preserved, and the widgets whose keys are
present among the visible items — exactly those — receive the `setData`
call. -/
theorem updateItemsGo_spec (tm : Templates) (visible : List Item) (cart : Cart) :
    ∀ ws : List Widget,
      widgetKeys (updateItemsGo tm visible cart ws).1 = widgetKeys ws
      ∧ (updateItemsGo tm visible cart ws).2
        = (ws.filter (fun w => (visible.map keyOf).contains w.key)).map
            (fun w => Eff.setDataCall w.key) := by
  intro ws
  induction ws with
  | nil => exact ⟨rfl, rfl⟩
  | cons w rest ih =>
    obtain ⟨ih1, ih2⟩ := ih
    simp only [widgetKeys] at ih1
    cases hf : visible.find? (fun it => keyOf it == w.key) with
    | some it =>
      have hkeq : keyOf it = w.key := by
        have hp := List.find?_some hf
        simpa using hp
      have hex : ∃ a ∈ visible, keyOf a = w.key :=
        ⟨it, List.mem_of_find?_eq_some hf, hkeq⟩
      constructor
      · simp only [updateItemsGo, hf, widgetKeys, List.map_cons]
        rw [setData_key tm w it (some cart) hkeq, ih1]
      · simp [updateItemsGo, hf, List.filter_cons, hex, ih2]
    | none =>
      have hex : ¬ ∃ a ∈ visible, keyOf a = w.key := by
        rintro ⟨x, hx, hk⟩
        exact (List.find?_eq_none.1 hf x hx) (beq_iff_eq.2 hk)
      constructor
      · simp only [updateItemsGo, hf, widgetKeys, List.map_cons]
        rw [ih1]
      · simp [updateItemsGo, hf, List.filter_cons, hex, ih2]

/-- The addition phase records exactly one creation per added item, in
snapshot order, whatever the container looks like. -/
theorem addItemsToDOM_effs (tm : Templates) (cart : Cart) (nk : List String) :
    ∀ (items : List Item) (ws : List Widget),
      (addItemsToDOM tm cart nk ws items).2 = items.map (fun d => Eff.create (keyOf d)) := by
  intro items
  induction items with
  | nil => intro ws; rfl
  | cons d rest ih => intro ws; simp [addItemsToDOM, ih]

/-- Call-key extraction distributes over concatenation of effect logs. -/
theorem destroyedKeys_append (a b : List Eff) :
    destroyedKeys (a ++ b) = destroyedKeys a ++ destroyedKeys b := by
  simp [destroyedKeys]

/-- Companion of `destroyedKeys_append` for `setData` calls. -/
theorem setDataKeys_append (a b : List Eff) :
    setDataKeys (a ++ b) = setDataKeys a ++ setDataKeys b := by
  simp [setDataKeys]

/-- Companion of `destroyedKeys_append` for creations. -/
theorem createdKeys_append (a b : List Eff) :
    createdKeys (a ++ b) = createdKeys a ++ createdKeys b := by
  simp [createdKeys]

/-- Extraction of each call kind from a homogeneous effect log. -/
theorem destroyedKeys_destroyMap (l : List Widget) :
    destroyedKeys (l.map (fun w => Eff.destroy w.key)) = l.map Widget.key := by
  induction l with
  | nil => rfl
  | cons x rest ih =>
    simp only [destroyedKeys] at ih
    simp [destroyedKeys, ih]

/-- No destroy call in a `setData` log. -/
theorem destroyedKeys_setDataMap (l : List Widget) :
    destroyedKeys (l.map (fun w => Eff.setDataCall w.key)) = [] := by
  simp [destroyedKeys]

/-- No destroy call in a creation log. -/
theorem destroyedKeys_createMap (l : List Item) :
    destroyedKeys (l.map (fun d => Eff.create (keyOf d))) = [] := by
  simp [destroyedKeys]

/-- No `setData` call in a destroy log. -/
theorem setDataKeys_destroyMap (l : List Widget) :
    setDataKeys (l.map (fun w => Eff.destroy w.key)) = [] := by
  simp [setDataKeys]

/-- Extraction of the `setData` calls from their own log. -/
theorem setDataKeys_setDataMap (l : List Widget) :
    setDataKeys (l.map (fun w => Eff.setDataCall w.key)) = l.map Widget.key := by
  induction l with
  | nil => rfl
  | cons x rest ih =>
    simp only [setDataKeys] at ih
    simp [setDataKeys, ih]

/-- No `setData` call in a creation log. -/
theorem setDataKeys_createMap (l : List Item) :
    setDataKeys (l.map (fun d => Eff.create (keyOf d))) = [] := by
  simp [setDataKeys]

/-- No creation in a destroy log. -/
theorem createdKeys_destroyMap (l : List Widget) :
    createdKeys (l.map (fun w => Eff.destroy w.key)) = [] := by
  simp [createdKeys]

/-- No creation in a `setData` log. -/
theorem createdKeys_setDataMap (l : List Widget) :
    createdKeys (l.map (fun w => Eff.setDataCall w.key)) = [] := by
  simp [createdKeys]

/-- Extraction of the creations from their own log. -/
theorem createdKeys_createMap (l : List Item) :
    createdKeys (l.map (fun d => Eff.create (keyOf d))) = l.map keyOf := by
  induction l with
  | nil => rfl
  | cons x rest ih =>
    simp only [createdKeys] at ih
    simp [createdKeys, ih]

/-- Filtering on a key predicate commutes with a key-preserving rewrite of
the widgets, at the level of the key lists. -/
theorem keys_filter_map_keyPreserving (f : Widget → Widget)
    (hf : ∀ w, (f w).key = w.key) (p : String → Bool) :
    ∀ ws : List Widget,
      ((ws.map f).filter (fun w => p w.key)).map Widget.key
        = (ws.filter (fun w => p w.key)).map Widget.key := by
  intro ws
  induction ws with
  | nil => rfl
  | cons w rest ih =>
    by_cases hp : p w.key = true
    · simp [List.filter_cons, hf, hp, ih]
    · have hp0 : p w.key = false := by simpa using hp
      simp [List.filter_cons, hf, hp0, ih]

/-- C1. For a non-initial reconciliation: the destroy calls go to exactly
the rendered widgets whose keys are absent from the visible items (in DOM
order), the `setData` calls go to exactly the rendered widgets whose keys
are present among the visible items, and widgets are created for exactly
the visible keys with no rendered widget (in snapshot order); with an empty
visible list every rendered widget is destroyed and nothing is updated or
added. -/
theorem reconcile_diff_exact (tm : Templates) (ws : List Widget) (c : Cart) :
    destroyedKeys (renderCartItems tm ws false c).2.2
        = (ws.filter (fun w =>
            !(((getVisibleCartItems c).map keyOf).contains w.key))).map Widget.key
    ∧ setDataKeys (renderCartItems tm ws false c).2.2
        = (ws.filter (fun w =>
            ((getVisibleCartItems c).map keyOf).contains w.key)).map Widget.key
    ∧ createdKeys (renderCartItems tm ws false c).2.2
        = ((getVisibleCartItems c).filter
            (fun d => !((ws.map Widget.key).contains (keyOf d)))).map keyOf
    ∧ (getVisibleCartItems c = [] →
        destroyedKeys (renderCartItems tm ws false c).2.2 = ws.map Widget.key
        ∧ setDataKeys (renderCartItems tm ws false c).2.2 = []
        ∧ createdKeys (renderCartItems tm ws false c).2.2 = []) := by
  have hr : (renderCartItems tm ws false c).2.2
      = (removeItemsFromDOM ((getVisibleCartItems c).map keyOf) ws).2
        ++ (updateItemsGo tm (getVisibleCartItems c) c
              (removeItemsFromDOM ((getVisibleCartItems c).map keyOf) ws).1).2
        ++ (addItemsToDOM tm c ((getVisibleCartItems c).map keyOf)
              (updateItemsGo tm (getVisibleCartItems c) c
                (removeItemsFromDOM ((getVisibleCartItems c).map keyOf) ws).1).1
              ((getVisibleCartItems c).filter
                (fun d => !((ws.map Widget.key).contains (keyOf d))))).2 := rfl
  have e1 := removeItemsFromDOM_spec ((getVisibleCartItems c).map keyOf) ws
  have e2 := updateItemsGo_spec tm (getVisibleCartItems c) c
    (removeItemsFromDOM ((getVisibleCartItems c).map keyOf) ws).1
  have e3 := addItemsToDOM_effs tm c ((getVisibleCartItems c).map keyOf)
    ((getVisibleCartItems c).filter (fun d => !((ws.map Widget.key).contains (keyOf d))))
    (updateItemsGo tm (getVisibleCartItems c) c
      (removeItemsFromDOM ((getVisibleCartItems c).map keyOf) ws).1).1
  have hdes : destroyedKeys (renderCartItems tm ws false c).2.2
      = (ws.filter (fun w =>
          !(((getVisibleCartItems c).map keyOf).contains w.key))).map Widget.key := by
    rw [hr, e1.2, e2.2, e3, destroyedKeys_append, destroyedKeys_append,
      destroyedKeys_destroyMap, destroyedKeys_setDataMap, destroyedKeys_createMap]
    simp
  have hset : setDataKeys (renderCartItems tm ws false c).2.2
      = (ws.filter (fun w =>
          ((getVisibleCartItems c).map keyOf).contains w.key)).map Widget.key := by
    rw [hr, e1.2, e2.2, e3, setDataKeys_append, setDataKeys_append,
      setDataKeys_destroyMap, setDataKeys_setDataMap, setDataKeys_createMap, e1.1]
    have hkp : ∀ w : Widget,
        ((fun w => if ((getVisibleCartItems c).map keyOf).contains w.key then w
          else destroyYourself w) w).key = w.key := by
      intro w
      show (if ((getVisibleCartItems c).map keyOf).contains w.key = true then w
        else destroyYourself w).key = w.key
      by_cases hb : ((getVisibleCartItems c).map keyOf).contains w.key = true
      · rw [if_pos hb]
      · rw [if_neg hb]
        exact destroyYourself_key w
    have hmain := keys_filter_map_keyPreserving
      (fun w => if ((getVisibleCartItems c).map keyOf).contains w.key then w
        else destroyYourself w) hkp
      (fun k => ((getVisibleCartItems c).map keyOf).contains k) ws
    simpa using hmain
  have hcre : createdKeys (renderCartItems tm ws false c).2.2
      = ((getVisibleCartItems c).filter
          (fun d => !((ws.map Widget.key).contains (keyOf d)))).map keyOf := by
    rw [hr, e1.2, e2.2, e3, createdKeys_append, createdKeys_append,
      createdKeys_destroyMap, createdKeys_setDataMap, createdKeys_createMap]
    simp
  refine ⟨hdes, hset, hcre, ?_⟩
  intro hv
  refine ⟨?_, ?_, ?_⟩
  · rw [hdes, hv]
    simp
  · rw [hset, hv]
    simp
  · rw [hcre, hv]
    simp

/-- Rendered widgets for the sample cart, to diff against. -/
def sampleWidgets : List Widget :=
  (renderCartItems sampleTemplates [] true sampleCart).1

/-- A second snapshot: item `a` gone, `c` still present (with a new
quantity), a new item `e` added; `b`, `d` stay hidden. -/
def sampleCartNext : Cart :=
  { items :=
      [sampleItem "b" 1 500 (some "true") none,
       sampleItem "c" 4 700 none (some "true"),
       sampleItem "e" 1 250 none none],
    total_price := 950, attrs := [] }

/-- Witness for C1: diffing the sample widgets (`a`, `c`) against the next
snapshot (visible `c`, `e`) destroys exactly `a`, updates exactly `c` and
creates exactly `e`; diffing against an all-hidden snapshot destroys both
and creates/updates nothing. -/
theorem reconcile_diff_exact_witness :
    destroyedKeys (renderCartItems sampleTemplates sampleWidgets false sampleCartNext).2.2
        = ["a"]
    ∧ setDataKeys (renderCartItems sampleTemplates sampleWidgets false sampleCartNext).2.2
        = ["c"]
    ∧ createdKeys (renderCartItems sampleTemplates sampleWidgets false sampleCartNext).2.2
        = ["e"]
    ∧ destroyedKeys (renderCartItems sampleTemplates sampleWidgets false
          { items := [sampleItem "b" 1 500 (some "true") none], total_price := 500,
            attrs := [] }).2.2
        = ["a", "c"] := by
  have h1 := reconcile_diff_exact sampleTemplates sampleWidgets sampleCartNext
  have h2 := reconcile_diff_exact sampleTemplates sampleWidgets
    { items := [sampleItem "b" 1 500 (some "true") none], total_price := 500, attrs := [] }
  refine ⟨?_, ?_, ?_, ?_⟩
  · rw [h1.1]; decide
  · rw [h1.2.1]; decide
  · rw [h1.2.2.1]; decide
  · rw [(h2.2.2.2 (by decide)).1]; decide

/-! ## Claim C9 -/

/-- A widget created through `createAnimated` starts in `appearing` state
with the entry animation armed. -/
theorem createAnimated_state (tm : Templates) (item : Item) (c : Cart) :
    (createAnimated tm item c).state = WState.appearing
    ∧ (createAnimated tm item c).isAppearing = true := by
  unfold createAnimated mkCartItem renderWidget
  by_cases ht : tm.isEmpty <;> simp [ht]

/-- Inserting after the first widget carrying the anchor key splits the
list exactly at that widget. -/
theorem insertAfterKey_eq_take_drop (k : String) (nw : Widget) :
    ∀ (ws : List Widget) (j : Nat),
      ws.findIdx (fun w => w.key == k) = j → j < ws.length →
      insertAfterKey k nw ws = ws.take (j + 1) ++ nw :: ws.drop (j + 1) := by
  intro ws
  induction ws with
  | nil =>
    intro j hj hlen
    simp at hlen
  | cons x rest ih =>
    intro j hj hlen
    by_cases hx : (x.key == k) = true
    · have hj0 : j = 0 := by
        rw [List.findIdx_cons, hx] at hj
        simpa using hj.symm
      subst hj0
      simp [insertAfterKey, hx]
    · have hx0 : (x.key == k) = false := by simpa using hx
      rw [List.findIdx_cons, hx0] at hj
      simp only [cond_false] at hj
      cases j with
      | zero => exact absurd hj (by omega)
      | succ jp =>
        have hjp : rest.findIdx (fun w => w.key == k) = jp := by omega
        have hlenp : jp < rest.length := by
          simpa [Nat.succ_lt_succ_iff] using hlen
        simp [insertAfterKey, hx0, ih jp hjp hlenp]

/-- Unfolding equation of the anchor scan at a successor index. -/
theorem anchorScan_succ (ws : List Widget) (nk : List String) (t : Nat) :
    anchorScan ws nk (t + 1)
      = match nk[t]? with
        | some k1 => if ws.any (fun w => w.key == k1) then some k1 else anchorScan ws nk t
        | none => anchorScan ws nk t := rfl

/-- The anchor scan finds exactly the nearest preceding key of the new
order that is currently rendered: the returned key sits at an index `i`
below the target index, is rendered, and every new-order key strictly
between `i` and the target index is not rendered. -/
theorem anchorScan_spec (ws : List Widget) (nk : List String) :
    ∀ (t : Nat) (k : String),
      anchorScan ws nk t = some k ↔
        ∃ i, i < t ∧ nk[i]? = some k
          ∧ ws.any (fun w => w.key == k) = true
          ∧ ∀ j, i < j → j < t → ∀ kj, nk[j]? = some kj →
              ws.any (fun w => w.key == kj) = false := by
  intro t
  induction t with
  | zero =>
    intro k
    simp [anchorScan]
  | succ t ih =>
    intro k
    constructor
    · intro h
      cases hnk : nk[t]? with
      | some k0 =>
        simp only [anchorScan_succ, hnk] at h
        by_cases hr : ws.any (fun w => w.key == k0) = true
        · rw [if_pos hr] at h
          injection h with h
          subst h
          exact ⟨t, Nat.lt_succ_self t, hnk, hr,
            fun j hij hjt kj hkj => absurd (by omega : j < j) (lt_irrefl j)⟩
        · rw [if_neg hr] at h
          obtain ⟨i, hit, hi2, hi3, hi4⟩ := (ih k).1 h
          refine ⟨i, Nat.lt_succ_of_lt hit, hi2, hi3, ?_⟩
          intro j hij hjt kj hkj
          by_cases hjt2 : j < t
          · exact hi4 j hij hjt2 kj hkj
          · have hje : j = t := by omega
            subst hje
            rw [hnk] at hkj
            injection hkj with hkj
            subst hkj
            simpa using hr
      | none =>
        simp only [anchorScan_succ, hnk] at h
        obtain ⟨i, hit, hi2, hi3, hi4⟩ := (ih k).1 h
        refine ⟨i, Nat.lt_succ_of_lt hit, hi2, hi3, ?_⟩
        intro j hij hjt kj hkj
        by_cases hjt2 : j < t
        · exact hi4 j hij hjt2 kj hkj
        · have hje : j = t := by omega
          subst hje
          rw [hnk] at hkj
          exact Option.noConfusion hkj
    · rintro ⟨i, hit, hi2, hi3, hi4⟩
      cases hnk : nk[t]? with
      | some k0 =>
        by_cases hr : ws.any (fun w => w.key == k0) = true
        · rcases Nat.lt_succ_iff_lt_or_eq.1 hit with hlt | he
          · have hfalse := hi4 t hlt (Nat.lt_succ_self t) k0 hnk
            rw [hfalse] at hr
            exact absurd hr (by simp)
          · subst he
            rw [hnk] at hi2
            injection hi2 with hi2
            subst hi2
            simp [anchorScan, hnk, hr]
        · have hilt : i < t := by
            rcases Nat.lt_succ_iff_lt_or_eq.1 hit with hlt | he
            · exact hlt
            · exfalso
              subst he
              rw [hnk] at hi2
              injection hi2 with hi2
              subst hi2
              exact hr hi3
          have hrec : anchorScan ws nk t = some k :=
            (ih k).2 ⟨i, hilt, hi2, hi3,
              fun j hij hjt kj hkj => hi4 j hij (Nat.lt_succ_of_lt hjt) kj hkj⟩
          simp [anchorScan, hnk, hr, hrec]
      | none =>
        have hilt : i < t := by
          rcases Nat.lt_succ_iff_lt_or_eq.1 hit with hlt | he
          · exact hlt
          · exfalso
            subst he
            rw [hnk] at hi2
            exact Option.noConfusion hi2
        have hrec : anchorScan ws nk t = some k :=
          (ih k).2 ⟨i, hilt, hi2, hi3,
            fun j hij hjt kj hkj => hi4 j hij (Nat.lt_succ_of_lt hjt) kj hkj⟩
        simp [anchorScan, hnk, hrec]

/-- C9. Every added item is inserted as a widget created in `appearing`
state; additions are processed in snapshot order, and each one lands at the
position matching its index in the visible order: target index 0 goes to
the front, a positive target index goes immediately after the first widget
carrying the anchor key — which `anchorScan_spec` shows is the nearest
preceding key of the new order that is currently rendered — and when no
preceding key is rendered (or the key is absent from the new order) the
widget is appended at the end. -/
theorem add_items_insert_position (tm : Templates) (c : Cart) (newKeys : List String)
    (ws : List Widget) (item : Item) (d : Item) (rest : List Item) (t : Nat) (k : String) :
    (createAnimated tm item c).state = WState.appearing
    ∧ (createAnimated tm item c).isAppearing = true
    ∧ (newKeys.findIdx? (fun x => x == keyOf item) = some 0 →
        insertOne tm c newKeys ws item = createAnimated tm item c :: ws)
    ∧ (newKeys.findIdx? (fun x => x == keyOf item) = none →
        insertOne tm c newKeys ws item = ws ++ [createAnimated tm item c])
    ∧ (newKeys.findIdx? (fun x => x == keyOf item) = some (t + 1) →
        anchorScan ws newKeys (t + 1) = some k →
        insertOne tm c newKeys ws item
          = ws.take (ws.findIdx (fun w => w.key == k) + 1)
            ++ createAnimated tm item c :: ws.drop (ws.findIdx (fun w => w.key == k) + 1))
    ∧ (newKeys.findIdx? (fun x => x == keyOf item) = some (t + 1) →
        anchorScan ws newKeys (t + 1) = none →
        insertOne tm c newKeys ws item = ws ++ [createAnimated tm item c])
    ∧ (anchorScan ws newKeys (t + 1) = some k ↔
        ∃ i, i < t + 1 ∧ newKeys[i]? = some k
          ∧ ws.any (fun w => w.key == k) = true
          ∧ ∀ j, i < j → j < t + 1 → ∀ kj, newKeys[j]? = some kj →
              ws.any (fun w => w.key == kj) = false)
    ∧ addItemsToDOM tm c newKeys ws (d :: rest)
        = ((addItemsToDOM tm c newKeys (insertOne tm c newKeys ws d) rest).1,
           Eff.create (keyOf d)
             :: (addItemsToDOM tm c newKeys (insertOne tm c newKeys ws d) rest).2) := by
  refine ⟨(createAnimated_state tm item c).1, (createAnimated_state tm item c).2,
    ?_, ?_, ?_, ?_, anchorScan_spec ws newKeys (t + 1) k, rfl⟩
  · intro h
    simp [insertOne, h]
  · intro h
    simp [insertOne, h]
  · intro h ha
    have hany : ws.any (fun w => w.key == k) = true := by
      obtain ⟨i, _, _, h3, _⟩ := (anchorScan_spec ws newKeys (t + 1) k).1 ha
      exact h3
    have hex : ∃ x ∈ ws, (x.key == k) = true := List.any_eq_true.1 hany
    have hlen : ws.findIdx (fun w => w.key == k) < ws.length :=
      List.findIdx_lt_length_of_exists hex
    have hstep : insertOne tm c newKeys ws item
        = insertAfterKey k (createAnimated tm item c) ws := by
      simp [insertOne, h, ha]
    rw [hstep]
    exact insertAfterKey_eq_take_drop k (createAnimated tm item c) ws
      (ws.findIdx (fun w => w.key == k)) rfl hlen
  · intro h ha
    simp [insertOne, h, ha]

/-- Witness for C9 at the sample data: adding `e` (index 1 of the new order
`[c, e]`) to the rendered widgets `[a, c]` anchors after `c`, the first
added item of a batch is processed first, and the created widget appears. -/
theorem add_items_insert_position_witness :
    insertOne sampleTemplates sampleCartNext ["c", "e"] sampleWidgets
        (sampleItem "e" 1 250 none none)
      = sampleWidgets.take 2
        ++ createAnimated sampleTemplates (sampleItem "e" 1 250 none none) sampleCartNext
          :: sampleWidgets.drop 2
    ∧ (createAnimated sampleTemplates (sampleItem "e" 1 250 none none) sampleCartNext).state
      = WState.appearing := by
  have h := add_items_insert_position sampleTemplates sampleCartNext ["c", "e"]
    sampleWidgets (sampleItem "e" 1 250 none none) (sampleItem "e" 1 250 none none) [] 0 "c"
  constructor
  · have he := h.2.2.2.2.1 (by decide) (by decide)
    rw [he]
    have hidx : sampleWidgets.findIdx (fun w => w.key == "c") = 1 := by decide
    rw [hidx]
  · exact h.1

/-! ## Claim C2 -/

/-- A pointwise key-preserving rewrite leaves the key list unchanged. -/
theorem widgetKeys_map (f : Widget → Widget) (hf : ∀ w, (f w).key = w.key) :
    ∀ ws : List Widget, widgetKeys (ws.map f) = widgetKeys ws := by
  intro ws
  induction ws with
  | nil => rfl
  | cons w rest ih => simp only [List.map_cons, widgetKeys] at ih ⊢; rw [hf, ih]

/-- A key-preserving rewrite of one position leaves the key list unchanged. -/
theorem applyAt_keys (f : Widget → Widget) (hf : ∀ w, (f w).key = w.key) :
    ∀ (ws : List Widget) (i : Nat), widgetKeys (applyAt i f ws) = widgetKeys ws := by
  intro ws
  induction ws with
  | nil => intro i; rfl
  | cons x rest ih =>
    intro i
    cases i with
    | zero => simp [applyAt, widgetKeys, hf]
    | succ i =>
      cases hr : rest[i]? with
      | none => simp [applyAt, List.getElem?_cons_succ, hr]
      | some w =>
        have hrec := ih i
        simp only [applyAt, hr] at hrec
        simp only [widgetKeys] at hrec
        simp only [applyAt, List.getElem?_cons_succ, hr, List.set_cons_succ,
          widgetKeys, List.map_cons]
        rw [hrec]

/-- Removing one widget removes one key. -/
theorem widgetKeys_eraseIdx :
    ∀ (ws : List Widget) (i : Nat),
      widgetKeys (ws.eraseIdx i) = (widgetKeys ws).eraseIdx i := by
  intro ws
  induction ws with
  | nil => intro i; rfl
  | cons x rest ih =>
    intro i
    cases i with
    | zero => rfl
    | succ i =>
      have hrec := ih i
      simp only [widgetKeys] at hrec
      simp [List.eraseIdx_cons_succ, widgetKeys, hrec]

/-- Writing a state attribute by key leaves the key list unchanged. -/
theorem setStateByKey_keys (k : String) (st : WState) (ws : List Widget) :
    widgetKeys (setStateByKey k st ws) = widgetKeys ws := by
  refine widgetKeys_map _ ?_ ws
  intro w
  by_cases hb : (w.key == k) = true
  · rw [if_pos hb]; rfl
  · rw [if_neg hb]

/-- With a registered template, a freshly created widget carries exactly the
item key of its item data. -/
theorem mkCartItem_key (tm : Templates) (item : Item) (c : Cart) (a : Bool)
    (htm : tm ≠ []) : (mkCartItem tm item c a).key = keyOf item := by
  have ht : tm.isEmpty = false := by
    cases tm with
    | nil => exact absurd rfl htm
    | cons x l => rfl
  unfold mkCartItem renderWidget
  by_cases hk : keyOf item = ""
  · simp only [ht, Bool.false_eq_true, if_false, hk, if_true, if_pos rfl]
    split <;> simp [hk]
  · simp only [ht, Bool.false_eq_true, if_false, if_neg hk]
    split <;> rfl

/-- The removal phase keeps the key list. -/
theorem removeItemsFromDOM_keys (nk : List String) (ws : List Widget) :
    widgetKeys (removeItemsFromDOM nk ws).1 = widgetKeys ws := by
  rw [(removeItemsFromDOM_spec nk ws).1]
  refine widgetKeys_map _ ?_ ws
  intro w
  by_cases hb : nk.contains w.key = true
  · rw [if_pos hb]
  · rw [if_neg hb]
    exact destroyYourself_key w

/-- Inserting after an anchor adds the new widget's key, up to order. -/
theorem insertAfterKey_keys_perm (k : String) (nw : Widget) :
    ∀ ws : List Widget,
      (widgetKeys (insertAfterKey k nw ws)).Perm (nw.key :: widgetKeys ws) := by
  intro ws
  induction ws with
  | nil => exact List.Perm.refl _
  | cons x rest ih =>
    by_cases hb : (x.key == k) = true
    · simp only [insertAfterKey, hb, if_true, widgetKeys, List.map_cons]
      exact List.Perm.swap nw.key x.key _
    · simp only [insertAfterKey, hb, Bool.false_eq_true, if_false, widgetKeys, List.map_cons]
      simp only [widgetKeys] at ih
      exact (ih.cons x.key).trans (List.Perm.swap nw.key x.key _)

/-- One addition step adds exactly the created widget's key, up to order. -/
theorem insertOne_keys_perm (tm : Templates) (c : Cart) (nk : List String)
    (ws : List Widget) (item : Item) :
    (widgetKeys (insertOne tm c nk ws item)).Perm
      ((createAnimated tm item c).key :: widgetKeys ws) := by
  cases hi : nk.findIdx? (fun x => x == keyOf item) with
  | none =>
    rw [show insertOne tm c nk ws item = ws ++ [createAnimated tm item c] by
      simp [insertOne, hi]]
    simp only [widgetKeys, List.map_append, List.map_cons, List.map_nil]
    exact List.perm_append_singleton _ _
  | some t =>
    cases t with
    | zero =>
      rw [show insertOne tm c nk ws item = createAnimated tm item c :: ws by
        simp [insertOne, hi]]
      exact List.Perm.refl _
    | succ t =>
      cases ha : anchorScan ws nk (t + 1) with
      | some k =>
        rw [show insertOne tm c nk ws item
            = insertAfterKey k (createAnimated tm item c) ws by
          simp [insertOne, hi, ha]]
        exact insertAfterKey_keys_perm k _ ws
      | none =>
        rw [show insertOne tm c nk ws item = ws ++ [createAnimated tm item c] by
          simp [insertOne, hi, ha]]
        simp only [widgetKeys, List.map_append, List.map_cons, List.map_nil]
        exact List.perm_append_singleton _ _

/-- The addition phase adds exactly the created widgets' keys, up to order. -/
theorem addItemsToDOM_keys_perm (tm : Templates) (c : Cart) (nk : List String) :
    ∀ (items : List Item) (ws : List Widget),
      (widgetKeys (addItemsToDOM tm c nk ws items).1).Perm
        (items.map (fun d => (createAnimated tm d c).key) ++ widgetKeys ws) := by
  intro items
  induction items with
  | nil => intro ws; exact List.Perm.refl _
  | cons d rest ih =>
    intro ws
    have h1 := ih (insertOne tm c nk ws d)
    have h2 := insertOne_keys_perm tm c nk ws d
    have h3 : (widgetKeys (addItemsToDOM tm c nk ws (d :: rest)).1).Perm
        (rest.map (fun d => (createAnimated tm d c).key)
          ++ ((createAnimated tm d c).key :: widgetKeys ws)) := by
      have hd : (addItemsToDOM tm c nk ws (d :: rest)).1
          = (addItemsToDOM tm c nk (insertOne tm c nk ws d) rest).1 := rfl
      rw [hd]
      exact h1.trans (List.Perm.append_left _ h2)
    refine h3.trans ?_
    simp only [List.map_cons, List.cons_append]
    exact List.perm_middle

/-- A reconciliation against a snapshot with pairwise distinct visible keys
preserves distinctness of the rendered widget keys (templates registered). -/
theorem renderCartItems_keys_nodup (tm : Templates) (ws : List Widget)
    (init : Bool) (c : Cart) (htm : tm ≠ [])
    (hws : (widgetKeys ws).Nodup)
    (hvis : (((getVisibleCartItems c).map keyOf)).Nodup) :
    (widgetKeys (renderCartItems tm ws init c).1).Nodup := by
  cases init with
  | true =>
    have h1 : (renderCartItems tm ws true c).1
        = (getVisibleCartItems c).map (fun d => mkCartItem tm d c false) := rfl
    rw [h1]
    have h2 : widgetKeys ((getVisibleCartItems c).map (fun d => mkCartItem tm d c false))
        = (getVisibleCartItems c).map keyOf := by
      unfold widgetKeys
      rw [List.map_map]
      refine List.map_congr_left ?_
      intro d _
      exact mkCartItem_key tm d c false htm
    rw [h2]
    exact hvis
  | false =>
    have h1 : (renderCartItems tm ws false c).1
        = (addItemsToDOM tm c ((getVisibleCartItems c).map keyOf)
            (updateItemsGo tm (getVisibleCartItems c) c
              (removeItemsFromDOM ((getVisibleCartItems c).map keyOf) ws).1).1
            ((getVisibleCartItems c).filter
              (fun d => !((ws.map Widget.key).contains (keyOf d))))).1 := rfl
    rw [h1]
    have hk2 : widgetKeys (updateItemsGo tm (getVisibleCartItems c) c
          (removeItemsFromDOM ((getVisibleCartItems c).map keyOf) ws).1).1
        = widgetKeys ws := by
      rw [(updateItemsGo_spec tm (getVisibleCartItems c) c
        (removeItemsFromDOM ((getVisibleCartItems c).map keyOf) ws).1).1]
      exact removeItemsFromDOM_keys _ ws
    have hperm := addItemsToDOM_keys_perm tm c ((getVisibleCartItems c).map keyOf)
      ((getVisibleCartItems c).filter (fun d => !((ws.map Widget.key).contains (keyOf d))))
      (updateItemsGo tm (getVisibleCartItems c) c
        (removeItemsFromDOM ((getVisibleCartItems c).map keyOf) ws).1).1
    rw [hk2] at hperm
    have hmapkeys : ((getVisibleCartItems c).filter
          (fun d => !((ws.map Widget.key).contains (keyOf d)))).map
          (fun d => (createAnimated tm d c).key)
        = ((getVisibleCartItems c).filter
            (fun d => !((ws.map Widget.key).contains (keyOf d)))).map keyOf := by
      refine List.map_congr_left ?_
      intro d _
      exact mkCartItem_key tm d c true htm
    rw [hmapkeys] at hperm
    refine hperm.nodup_iff.2 ?_
    have hna : (((getVisibleCartItems c).filter
        (fun d => !((ws.map Widget.key).contains (keyOf d)))).map keyOf).Nodup :=
      hvis.sublist (List.Sublist.map keyOf (List.filter_sublist _))
    refine List.Nodup.append hna hws ?_
    rw [List.disjoint_left]
    intro a ha hb
    obtain ⟨d, hd, rfl⟩ := List.mem_map.1 ha
    have hdf := (List.mem_filter.1 hd).2
    have : (ws.map Widget.key).contains (keyOf d) = false := by
      cases hcc : (ws.map Widget.key).contains (keyOf d) with
      | false => rfl
      | true => rw [hcc] at hdf; exact absurd hdf (by simp)
    exact (contains_eq_false_iff _ _).1 this hb

/-- Every step of the system preserves distinctness of the rendered keys. -/
theorem pstep_preserves_nodup (tm : Templates) (htm : tm ≠ []) {s sn : CPState}
    (hstep : PStep tm s sn) (h : (widgetKeys s.ws).Nodup) :
    (widgetKeys sn.ws).Nodup := by
  cases hstep with
  | refresh resp hresp =>
    cases resp with
    | ok c => exact renderCartItems_keys_nodup tm s.ws s.isInitialRender c htm h (hresp c rfl)
    | errObj m => exact h
    | nullResp => exact h
  | removeIntent k resp hresp =>
    cases resp with
    | ok c =>
      refine renderCartItems_keys_nodup tm _ s.isInitialRender c htm ?_ (hresp c rfl)
      rw [setStateByKey_keys]
      exact h
    | errObj m =>
      show (widgetKeys (setStateByKey k WState.ready
        (setStateByKey k WState.processing s.ws))).Nodup
      rw [setStateByKey_keys, setStateByKey_keys]
      exact h
    | nullResp =>
      show (widgetKeys (setStateByKey k WState.ready
        (setStateByKey k WState.processing s.ws))).Nodup
      rw [setStateByKey_keys, setStateByKey_keys]
      exact h
  | quantityIntent k q resp hresp =>
    cases resp with
    | ok c =>
      refine renderCartItems_keys_nodup tm _ s.isInitialRender c htm ?_ (hresp c rfl)
      rw [setStateByKey_keys]
      exact h
    | errObj m =>
      show (widgetKeys (setStateByKey k WState.ready
        (setStateByKey k WState.processing s.ws))).Nodup
      rw [setStateByKey_keys, setStateByKey_keys]
      exact h
    | nullResp =>
      show (widgetKeys (setStateByKey k WState.ready
        (setStateByKey k WState.processing s.ws))).Nodup
      rw [setStateByKey_keys, setStateByKey_keys]
      exact h
  | detach i w hw hd =>
    show (widgetKeys (s.ws.eraseIdx i)).Nodup
    rw [widgetKeys_eraseIdx]
    exact h.sublist (List.eraseIdx_sublist _ i)
  | widgetEvent i op hop =>
    show (widgetKeys (applyAt i (applyWOp tm op) s.ws)).Nodup
    rw [applyAt_keys _ hop]
    exact h

/-- C2, amended. The claim as stated — "never two widgets with the same
key at any time" over every sequence of reconciliations with distinct
visible keys — is false of the program: a reconciliation that starts while
a previous reconciliation's deferred insertion batch is still pending can
schedule a second insertion of the same new key, and both batches mount
(see the fine-grained schedule model and its duplicate-key derivation
below). Amended with the serialization proviso the counterexample forces:
along every sequence of serialized system steps from the empty initial
state — each reconciliation, with pairwise distinct visible keys,
completing its deferred insertions before the next one begins,
interleaved with asynchronous widget events and detachments — the
rendered widget collection never holds two widgets with the same key; a
widget still playing its removal animation stays in the collection (and
keeps blocking its key) until its detach step. Requires a registered
template, without which the code never writes any key attribute. -/
theorem rendered_keys_nodup (tm : Templates) (htm : tm ≠ []) (s : CPState)
    (h : Reachable tm s) : (widgetKeys s.ws).Nodup := by
  induction h with
  | refl => simp [initialCPState, widgetKeys]
  | tail hsteps hstep ih => exact pstep_preserves_nodup tm htm hstep ih

/-- Witness for C2: one reconciliation of the sample cart from the empty
initial state yields distinct rendered keys. -/
theorem rendered_keys_nodup_witness :
    (widgetKeys (refreshCart sampleTemplates initialCPState (CartResp.ok sampleCart)).1.ws).Nodup := by
  refine rendered_keys_nodup sampleTemplates (by simp [sampleTemplates]) _ ?_
  exact Relation.ReflTransGen.single
    (PStep.refresh initialCPState (CartResp.ok sampleCart)
      (fun c hc => by injection hc with h2; subst h2; decide))

/-! ## Fine-grained schedule model (deferred insertion batches)

`CartPanel.#addItemsToDOM` performs its insertions inside a
`setTimeout(..., 100)` callback: the remove and update phases of a
reconciliation run synchronously, but the additions are a separately
scheduled batch. The model below keeps those scheduled batches explicit
(`pending`), so a second reconciliation can start while a batch from the
previous one has not mounted yet — the schedule on which the original C2
claim fails. -/

/-- One scheduled insertion batch: the closure captured by the deferred
callback of `#addItemsToDOM`. -/
structure PendingAdd where
  itemsToAdd : List Item
  newKeys : List String
  cart : Cart
deriving DecidableEq, Repr

/-- Controller state with the queue of scheduled insertion batches. -/
structure CPStateF where
  ws : List Widget
  isInitialRender : Bool
  currentCart : Option Cart
  pending : List PendingAdd
deriving DecidableEq, Repr

/-- The synchronous part of `CartPanel.#renderCartItems`: the initial
branch bulk-creates immediately and schedules nothing; the diffing branch
runs the remove and update phases now, computes the items to add from the
keys rendered at this moment, and schedules them as one batch. Returns
(widgets, isInitialRender flag, scheduled batches). -/
def renderCartItemsSync (tm : Templates) (ws : List Widget) (isInitialRender : Bool)
    (cart : Cart) : List Widget × Bool × List PendingAdd :=
  let visible := getVisibleCartItems cart
  if isInitialRender then
    (visible.map (fun d => mkCartItem tm d cart false), false, [])
  else
    let currentKeys := ws.map Widget.key
    let newKeys := visible.map keyOf
    let r1 := removeItemsFromDOM newKeys ws
    let r2 := updateItemsInDOM tm cart r1.1
    let itemsToAdd := visible.filter (fun d => !(currentKeys.contains (keyOf d)))
    (r2.1, isInitialRender, [{ itemsToAdd := itemsToAdd, newKeys := newKeys, cart := cart }])

/-- `CartPanel.refreshCart` in the fine-grained model: like `refreshCart`,
but the insertion batch is appended to the timer queue instead of being
applied immediately. -/
def refreshCartF (tm : Templates) (s : CPStateF) (resp : CartResp) :
    CPStateF × List Ev × List String :=
  match resp with
  | CartResp.nullResp => (s, [], ["Cart data has error or is null"])
  | CartResp.errObj m => (s, [], ["Cart data has error or is null: " ++ m])
  | CartResp.ok c =>
    let r := renderCartItemsSync tm s.ws s.isInitialRender c
    let wc := addCalculatedFields c
    ({ ws := r.1, isInitialRender := r.2.1, currentCart := some c,
       pending := s.pending ++ r.2.2 },
      [Ev.refreshed wc, Ev.dataChanged wc], [])

/-- `CartPanel.#handleCartItemRemove` in the fine-grained model. -/
def handleCartItemRemoveF (tm : Templates) (s : CPStateF) (k : String)
    (resp : CartResp) : CPStateF × List Ev × List String :=
  let ws1 := setStateByKey k WState.processing s.ws
  match resp with
  | CartResp.ok c =>
    let r := renderCartItemsSync tm ws1 s.isInitialRender c
    let wc := addCalculatedFields c
    ({ ws := r.1, isInitialRender := r.2.1, currentCart := some c,
       pending := s.pending ++ r.2.2 },
      [Ev.updated wc, Ev.dataChanged wc], [])
  | CartResp.errObj m =>
    ({ s with ws := setStateByKey k WState.ready ws1 }, [],
      ["Failed to remove cart item: " ++ m])
  | CartResp.nullResp =>
    ({ s with ws := setStateByKey k WState.ready ws1 }, [],
      ["Failed to remove cart item"])

/-- `CartPanel.#handleCartItemQuantityChange` in the fine-grained model. -/
def handleCartItemQuantityChangeF (tm : Templates) (s : CPStateF) (k : String)
    (_quantity : Int) (resp : CartResp) : CPStateF × List Ev × List String :=
  let ws1 := setStateByKey k WState.processing s.ws
  match resp with
  | CartResp.ok c =>
    let r := renderCartItemsSync tm ws1 s.isInitialRender c
    let wc := addCalculatedFields c
    ({ ws := r.1, isInitialRender := r.2.1, currentCart := some c,
       pending := s.pending ++ r.2.2 },
      [Ev.updated wc, Ev.dataChanged wc], [])
  | CartResp.errObj m =>
    ({ s with ws := setStateByKey k WState.ready ws1 }, [],
      ["Failed to update cart item quantity: " ++ m])
  | CartResp.nullResp =>
    ({ s with ws := setStateByKey k WState.ready ws1 }, [],
      ["Failed to update cart item quantity"])

/-- Firing the oldest scheduled timer: mount its insertion batch into the
container as it is now. -/
def fireTimer (tm : Templates) (s : CPStateF) : CPStateF :=
  match s.pending with
  | [] => s
  | p :: rest =>
    { s with ws := (addItemsToDOM tm p.cart p.newKeys s.ws p.itemsToAdd).1
             pending := rest }

/-- Fine-grained system steps: reconciliations (snapshot keys distinct)
whose insertion batches go through the timer queue, timer firings,
detachments and key-preserving asynchronous widget events. Unlike `PStep`,
a reconciliation may begin while a batch is still pending. -/
inductive PStepF (tm : Templates) : CPStateF → CPStateF → Prop where
  | refresh (s : CPStateF) (resp : CartResp)
      (h : ∀ c, resp = CartResp.ok c → (((getVisibleCartItems c).map keyOf).Nodup)) :
      PStepF tm s (refreshCartF tm s resp).1
  | removeIntent (s : CPStateF) (k : String) (resp : CartResp)
      (h : ∀ c, resp = CartResp.ok c → (((getVisibleCartItems c).map keyOf).Nodup)) :
      PStepF tm s (handleCartItemRemoveF tm s k resp).1
  | quantityIntent (s : CPStateF) (k : String) (q : Int) (resp : CartResp)
      (h : ∀ c, resp = CartResp.ok c → (((getVisibleCartItems c).map keyOf).Nodup)) :
      PStepF tm s (handleCartItemQuantityChangeF tm s k q resp).1
  | timerFire (s : CPStateF) : PStepF tm s (fireTimer tm s)
  | detach (s : CPStateF) (i : Nat) (w : Widget)
      (hw : s.ws[i]? = some w) (hd : w.isDestroying = true) :
      PStepF tm s { s with ws := s.ws.eraseIdx i }
  | widgetEvent (s : CPStateF) (i : Nat) (op : WOp)
      (hop : ∀ w, (applyWOp tm op w).key = w.key) :
      PStepF tm s { s with ws := applyAt i (applyWOp tm op) s.ws }

/-- The empty controller state of the fine-grained model. -/
def initialCPStateF : CPStateF :=
  { ws := [], isInitialRender := true, currentCart := none, pending := [] }

/-- Reachability in the fine-grained model. -/
def ReachableF (tm : Templates) (s : CPStateF) : Prop :=
  Relation.ReflTransGen (PStepF tm) initialCPStateF s

/-- When no batch is pending, running a refresh and then its timer is the
atomic reconciliation: the serialization hypothesis of the amended claim
is exactly the schedule the atomic relation `PStep` expresses. -/
theorem refreshF_fire_serialized (tm : Templates) (s : CPStateF) (c : Cart)
    (hp : s.pending = []) :
    (fireTimer tm (refreshCartF tm s (CartResp.ok c)).1).ws
      = (renderCartItems tm s.ws s.isInitialRender c).1
    ∧ (fireTimer tm (refreshCartF tm s (CartResp.ok c)).1).pending = [] := by
  constructor
  · cases hi : s.isInitialRender with
    | true => simp [refreshCartF, renderCartItemsSync, fireTimer, renderCartItems, hp, hi]
    | false => simp [refreshCartF, renderCartItemsSync, fireTimer, renderCartItems, hp, hi]
  · cases hi : s.isInitialRender with
    | true => simp [refreshCartF, renderCartItemsSync, fireTimer, hp, hi]
    | false => simp [refreshCartF, renderCartItemsSync, fireTimer, hp, hi]

/-- A one-item cart with key `a`. -/
def cartA : Cart :=
  { items := [sampleItem "a" 1 100 none none], total_price := 100, attrs := [] }

/-- A two-item cart with distinct keys `a` and `x`. -/
def cartAX : Cart :=
  { items := [sampleItem "a" 1 100 none none, sampleItem "x" 1 200 none none],
    total_price := 300, attrs := [] }

/-- The overlapping-refresh schedule: an initial render of `[a]`, then two
refreshes against `[a, x]` before either insertion batch mounts, then both
timers fire. -/
def overlappingRefreshState : CPStateF :=
  fireTimer sampleTemplates (fireTimer sampleTemplates
    (refreshCartF sampleTemplates
      (refreshCartF sampleTemplates
        (refreshCartF sampleTemplates initialCPStateF (CartResp.ok cartA)).1
        (CartResp.ok cartAX)).1
      (CartResp.ok cartAX)).1)

/-- C2, counterexample. In the fine-grained model of the program's real
schedule — where insertion batches mount behind a timer — the claimed
invariant is false as stated: every snapshot in this derivation has
pairwise distinct visible keys, yet because the second refresh starts
before the first refresh's batch has mounted, both batches insert key `x`
and the reachable final state renders keys `a, x, x`, two widgets with the
same item key. -/
theorem duplicate_key_from_overlapping_refreshes :
    ReachableF sampleTemplates overlappingRefreshState
    ∧ widgetKeys overlappingRefreshState.ws = ["a", "x", "x"]
    ∧ ¬ (widgetKeys overlappingRefreshState.ws).Nodup := by
  refine ⟨?_, by decide, by decide⟩
  have step1 : PStepF sampleTemplates initialCPStateF
      (refreshCartF sampleTemplates initialCPStateF (CartResp.ok cartA)).1 :=
    PStepF.refresh initialCPStateF (CartResp.ok cartA)
      (fun c hc => by injection hc with h2; subst h2; decide)
  have step2 : PStepF sampleTemplates
      (refreshCartF sampleTemplates initialCPStateF (CartResp.ok cartA)).1
      (refreshCartF sampleTemplates
        (refreshCartF sampleTemplates initialCPStateF (CartResp.ok cartA)).1
        (CartResp.ok cartAX)).1 :=
    PStepF.refresh _ (CartResp.ok cartAX)
      (fun c hc => by injection hc with h2; subst h2; decide)
  have step3 : PStepF sampleTemplates
      (refreshCartF sampleTemplates
        (refreshCartF sampleTemplates initialCPStateF (CartResp.ok cartA)).1
        (CartResp.ok cartAX)).1
      (refreshCartF sampleTemplates
        (refreshCartF sampleTemplates
          (refreshCartF sampleTemplates initialCPStateF (CartResp.ok cartA)).1
          (CartResp.ok cartAX)).1
        (CartResp.ok cartAX)).1 :=
    PStepF.refresh _ (CartResp.ok cartAX)
      (fun c hc => by injection hc with h2; subst h2; decide)
  have step4 : PStepF sampleTemplates
      (refreshCartF sampleTemplates
        (refreshCartF sampleTemplates
          (refreshCartF sampleTemplates initialCPStateF (CartResp.ok cartA)).1
          (CartResp.ok cartAX)).1
        (CartResp.ok cartAX)).1
      (fireTimer sampleTemplates
        (refreshCartF sampleTemplates
          (refreshCartF sampleTemplates
            (refreshCartF sampleTemplates initialCPStateF (CartResp.ok cartA)).1
            (CartResp.ok cartAX)).1
          (CartResp.ok cartAX)).1) :=
    PStepF.timerFire _
  have step5 : PStepF sampleTemplates
      (fireTimer sampleTemplates
        (refreshCartF sampleTemplates
          (refreshCartF sampleTemplates
            (refreshCartF sampleTemplates initialCPStateF (CartResp.ok cartA)).1
            (CartResp.ok cartAX)).1
          (CartResp.ok cartAX)).1)
      overlappingRefreshState :=
    PStepF.timerFire _
  exact Relation.ReflTransGen.tail
    (Relation.ReflTransGen.tail
      (Relation.ReflTransGen.tail
        (Relation.ReflTransGen.tail (Relation.ReflTransGen.single step1) step2)
        step3)
      step4)
    step5

end CartPanelSpec
